import Mathlib

/-!
Verification development for the Epic Games "Free Now" checker (src/script.py).

The script is shallowly embedded: JSON documents become the inductive `JVal`,
Python strings become `List Char`, operations that can raise become values in
`Except PyErr`, and `datetime` objects become the record `PyDatetime`
(naive when `offsetMin = none`, aware otherwise).  External collaborators
(the HTTP transport, the SMTP session, and the `zoneinfo` timezone database)
are abstracted as explicit parameters, exactly at the call sites where the
script hands control to them.
-/

set_option maxRecDepth 100000

/-- Python strings, modelled as lists of characters. -/
abbrev Str := List Char

/-- Exceptions of the modelled Python runtime (messages are dropped). -/
inductive PyErr where
  | attributeError
  | typeError
  | valueError
  | indexError
  | keyError
  | runtimeError
deriving Repr, DecidableEq

/-- JSON-like Python values, as produced by `json` / `requests.Response.json`. -/
inductive JVal where
  | null
  | bool (b : Bool)
  | num (n : Int)
  | str (s : Str)
  | arr (elts : List JVal)
  | obj (fields : List (Str × JVal))

/-- Python truthiness (`bool(v)`) on JSON values. -/
def pyTruthy : JVal → Bool
  | .null => false
  | .bool b => b
  | .num n => n != 0
  | .str s => !s.isEmpty
  | .arr l => !l.isEmpty
  | .obj l => !l.isEmpty

/-- First binding of key `k` in an association list (Python dicts keep keys unique). -/
def dictFind (kvs : List (Str × JVal)) (k : Str) : Option JVal :=
  match kvs with
  | [] => none
  | kv :: rest => if kv.1 = k then some kv.2 else dictFind rest k

/-- `v.get(k, dflt)`: dictionary lookup with default; raises `AttributeError`
when the receiver is not a dict (the JSON-object case). -/
def pyGetD (v : JVal) (k : Str) (dflt : JVal) : Except PyErr JVal :=
  match v with
  | .obj kvs => .ok ((dictFind kvs k).getD dflt)
  | _ => .error .attributeError

/-- `v.get(k)`: lookup defaulting to `None`. -/
def pyGet (v : JVal) (k : Str) : Except PyErr JVal := pyGetD v k .null

/-- `v[k]` on a dict: raises `KeyError` when the key is missing and
`TypeError` when the receiver is not subscriptable by a string. -/
def pySubscript (v : JVal) (k : Str) : Except PyErr JVal :=
  match v with
  | .obj kvs =>
    match dictFind kvs k with
    | some x => .ok x
    | none => .error .keyError
  | _ => .error .typeError

/-- `a or b` on values (short-circuit truthiness choice). -/
def pyOr (a b : JVal) : JVal := if pyTruthy a then a else b

/-- `v[0]`: first element of a list or one-character string; raises on
empty sequences, dicts (`KeyError`) and non-sequences (`TypeError`). -/
def pyIndex0 (v : JVal) : Except PyErr JVal :=
  match v with
  | .arr (x :: _) => .ok x
  | .arr [] => .error .indexError
  | .str (c :: _) => .ok (.str [c])
  | .str [] => .error .indexError
  | .obj _ => .error .keyError
  | _ => .error .typeError

/-- `for x in v`: iteration yields list elements, the characters of a string
(as one-character strings), or the keys of a dict; other values raise. -/
def pyIterList (v : JVal) : Except PyErr (List JVal) :=
  match v with
  | .arr l => .ok l
  | .str s => .ok (s.map (fun c => .str [c]))
  | .obj kvs => .ok (kvs.map (fun kv => .str kv.1))
  | _ => .error .typeError

/-- `v == lit` for a string literal `lit`: only equal strings compare equal. -/
def pyEqStr (v : JVal) (lit : Str) : Bool :=
  match v with
  | .str s => s = lit
  | _ => false

/-- Python `==` on hashable (scalar) values, with the `True == 1` coercion. -/
def pyEqScalar (a b : JVal) : Bool :=
  match a, b with
  | .null, .null => true
  | .bool x, .bool y => x = y
  | .bool x, .num n => (if x then (1 : Int) else 0) = n
  | .num n, .bool x => n = (if x then (1 : Int) else 0)
  | .num x, .num y => x = y
  | .str x, .str y => x = y
  | _, _ => false

/-- Insert-or-overwrite for dict displays keyed by scalar values
(later duplicate keys overwrite earlier ones, keeping the position). -/
def dictUpsert (kvs : List (JVal × JVal)) (k v : JVal) : List (JVal × JVal) :=
  match kvs with
  | [] => [(k, v)]
  | kv :: rest =>
    if pyEqScalar kv.1 k then (kv.1, v) :: rest else kv :: dictUpsert rest k v

/-- Lookup in a scalar-keyed dict (used for the image `by_type` table). -/
def dictFindScalar (kvs : List (JVal × JVal)) (k : JVal) : Option JVal :=
  match kvs with
  | [] => none
  | kv :: rest => if pyEqScalar kv.1 k then some kv.2 else dictFindScalar rest k

/-- Using a value as a dict key: lists and dicts are unhashable (`TypeError`). -/
def pyHashable : JVal → Bool
  | .arr _ => false
  | .obj _ => false
  | _ => true

/-- The six ASCII whitespace characters removed by `str.strip()`. -/
def pySpace (c : Char) : Bool :=
  c = ' ' ∨ c = '\t' ∨ c = '\n' ∨ c = '\r' ∨ c = '\x0b' ∨ c = '\x0c'

/-- `s.strip()` on an actual string. -/
def stripChars (s : Str) : Str :=
  ((s.dropWhile pySpace).reverse.dropWhile pySpace).reverse

/-- `(v or "").strip()`: falsy values become `""`; truthy non-strings raise. -/
def pyStripOr (v : JVal) : Except PyErr Str :=
  match pyOr v (.str []) with
  | .str s => .ok (stripChars s)
  | _ => .error .attributeError

/-- Decimal digit value of a character, if any. -/
def digitVal (c : Char) : Option Nat :=
  if 48 ≤ c.toNat ∧ c.toNat ≤ 57 then some (c.toNat - 48) else none

/-- Parse a nonempty run of decimal digits. -/
def parseDigitsAux : List Char → Nat → Option Nat
  | [], acc => some acc
  | c :: cs, acc =>
    match digitVal c with
    | some d => parseDigitsAux cs (acc * 10 + d)
    | none => none

/-- `int(s)` on string content that was already stripped: optional sign
followed by at least one digit. -/
def parseIntCore (s : Str) : Option Int :=
  match s with
  | '+' :: rest => if rest.isEmpty then none else (parseDigitsAux rest 0).map Int.ofNat
  | '-' :: rest => if rest.isEmpty then none else (parseDigitsAux rest 0).map (fun n => -(Int.ofNat n))
  | [] => none
  | _ => (parseDigitsAux s 0).map Int.ofNat

/-- Python `int(v)`: ints and bools convert, strings are parsed
(`ValueError` on malformed text), other values raise `TypeError`. -/
def pyInt (v : JVal) : Except PyErr Int :=
  match v with
  | .num n => .ok n
  | .bool b => .ok (if b then 1 else 0)
  | .str s =>
    match parseIntCore (stripChars s) with
    | some n => .ok n
    | none => .error .valueError
  | _ => .error .typeError

/-- Does `p` occur at the start of `s`? -/
def startsWithL (p s : Str) : Bool :=
  match p, s with
  | [], _ => true
  | _ :: _, [] => false
  | a :: ps, b :: cs => a = b && startsWithL ps cs

/-- Does `p` occur as a contiguous substring of `s`? -/
def containsSub (p s : Str) : Bool :=
  match s with
  | [] => p.isEmpty
  | _ :: cs => startsWithL p s || containsSub p cs

/-- Does `p` occur at the end of `s`? -/
def endsWithL (p s : Str) : Bool := startsWithL p.reverse s.reverse

/-- Fuel-indexed worker for `str.replace`: every step consumes at least one
character, so `s.length` fuel always suffices. -/
def replaceAllFuel : Nat → Str → Str → Str → Str
  | 0, s, _, _ => s
  | fuel + 1, s, pat, rep =>
    match s with
    | [] => []
    | c :: cs =>
      if !pat.isEmpty && startsWithL pat (c :: cs) then
        rep ++ replaceAllFuel fuel ((c :: cs).drop pat.length) pat rep
      else
        c :: replaceAllFuel fuel cs pat rep

/-- `s.replace(pat, rep)`: replace all non-overlapping occurrences, scanning
left to right and resuming after each replacement (empty patterns are never
used by the script; they are treated as no-ops to keep recursion total). -/
def replaceAll (s pat rep : Str) : Str := replaceAllFuel s.length s pat rep

/-- `html.escape(s, quote=True)` character translation. -/
def escChar (c : Char) : Str :=
  if c = '&' then "&amp;".data
  else if c = '<' then "&lt;".data
  else if c = '>' then "&gt;".data
  else if c = '"' then "&quot;".data
  else if c = '\'' then "&#x27;".data
  else [c]

/-- `html.escape(s, quote=True)`. -/
def htmlEscape : Str → Str
  | [] => []
  | c :: cs => escChar c ++ htmlEscape cs

/-- `html.escape` applied to a JSON value: only strings are accepted. -/
def pyEscapeJ (v : JVal) : Except PyErr Str :=
  match v with
  | .str s => .ok (htmlEscape s)
  | _ => .error .attributeError

/-- `s.startswith(p)` on a JSON value: raises on non-strings. -/
def pyStartsW (v : JVal) (p : Str) : Except PyErr Bool :=
  match v with
  | .str s => .ok (startsWithL p s)
  | _ => .error .attributeError

/-- UTF-8 encoding of a character, as byte values. -/
def utf8Bytes (c : Char) : List Nat :=
  let n := c.toNat
  if n < 0x80 then [n]
  else if n < 0x800 then [0xC0 + n / 64, 0x80 + n % 64]
  else if n < 0x10000 then [0xE0 + n / 4096, 0x80 + n / 64 % 64, 0x80 + n % 64]
  else [0xF0 + n / 262144, 0x80 + n / 4096 % 64, 0x80 + n / 64 % 64, 0x80 + n % 64]

/-- Uppercase hexadecimal digit. -/
def hexChar (n : Nat) : Char :=
  if n < 10 then Char.ofNat (48 + n) else Char.ofNat (55 + n)

/-- Characters `requests.utils.quote` leaves unencoded (unreserved plus the
default `safe='/'`). -/
def quoteSafe (c : Char) : Bool :=
  (48 ≤ c.toNat ∧ c.toNat ≤ 57) ∨ (65 ≤ c.toNat ∧ c.toNat ≤ 90) ∨
    (97 ≤ c.toNat ∧ c.toNat ≤ 122) ∨ c = '_' ∨ c = '.' ∨ c = '-' ∨ c = '~' ∨ c = '/'

/-- Percent-encode one character. -/
def quoteChar (c : Char) : Str :=
  if quoteSafe c then [c]
  else (utf8Bytes c).foldr (fun b acc => '%' :: hexChar (b / 16) :: hexChar (b % 16) :: acc) []

/-- `requests.utils.quote(s)` on a string. -/
def quoteStr : Str → Str
  | [] => []
  | c :: cs => quoteChar c ++ quoteStr cs

/-- `requests.utils.quote(v)` on a JSON value: non-strings raise `TypeError`. -/
def pyQuote (v : JVal) : Except PyErr Str :=
  match v with
  | .str s => .ok (quoteStr s)
  | _ => .error .typeError

/-- Code-point lexicographic `≤` on strings: Python string comparison. -/
def lexLe (a b : Str) : Bool :=
  match a, b with
  | [], _ => true
  | _ :: _, [] => false
  | x :: xs, y :: ys =>
    if x.toNat < y.toNat then true
    else if x.toNat = y.toNat then lexLe xs ys
    else false

/-- Insert `x` after every element `y` with `le y x`: the insertion step of a
stable sort (equal keys keep their original relative order, as Python's
`list.sort` guarantees). -/
def insAfter (le : α → α → Bool) (x : α) : List α → List α
  | [] => [x]
  | y :: ys => if le y x then y :: insAfter le x ys else x :: y :: ys

/-- Stable sort by a boolean total preorder, modelling `list.sort(key=...)`. -/
def pySortBy (le : α → α → Bool) (l : List α) : List α :=
  l.foldl (fun acc x => insAfter le x acc) []

/-- A `datetime.datetime` with second granularity: naive when
`offsetMin = none`, otherwise aware with a fixed UTC offset in minutes.
(The script never produces fractional seconds, so microseconds are not
modelled.) -/
structure PyDatetime where
  year : Nat
  month : Nat
  day : Nat
  hour : Nat
  minute : Nat
  second : Nat
  offsetMin : Option Int
deriving Repr, DecidableEq

/-- Is the (proleptic Gregorian) year a leap year? -/
def isLeap (y : Nat) : Bool := y % 4 = 0 ∧ (y % 100 ≠ 0 ∨ y % 400 = 0)

/-- Days in a month. -/
def daysInMonth (y m : Nat) : Nat :=
  if m = 2 then (if isLeap y then 29 else 28)
  else if m = 4 ∨ m = 6 ∨ m = 9 ∨ m = 11 then 30
  else 31

/-- Parse exactly `n` decimal digits, returning the value and the rest. -/
def parseFixed : Nat → Nat → Str → Option (Nat × Str)
  | 0, acc, s => some (acc, s)
  | _ + 1, _, [] => none
  | n + 1, acc, c :: cs =>
    match digitVal c with
    | some d => parseFixed n (acc * 10 + d) cs
    | none => none

/-- Expect one specific character. -/
def expectChar (c : Char) : Str → Option Str
  | [] => none
  | x :: xs => if x = c then some xs else none

/-- Range-check the parsed fields, as the `datetime` constructor does. -/
def mkDatetime (y mo d h mi s : Nat) (off : Option Int) : Option PyDatetime :=
  if 1 ≤ y ∧ 1 ≤ mo ∧ mo ≤ 12 ∧ 1 ≤ d ∧ d ≤ daysInMonth y mo ∧
      h ≤ 23 ∧ mi ≤ 59 ∧ s ≤ 59 then
    some ⟨y, mo, d, h, mi, s, off⟩
  else none

/-- Parse a timezone suffix `±HH:MM` (or nothing). -/
def parseOffSuffix (r : Str) : Option (Option Int) :=
  match r with
  | [] => some none
  | sign :: rest =>
    if sign = '+' ∨ sign = '-' then do
      let (oh, r1) ← parseFixed 2 0 rest
      let r2 ← expectChar ':' r1
      let (om, r3) ← parseFixed 2 0 r2
      if r3.isEmpty ∧ oh ≤ 23 ∧ om ≤ 59 then
        some (some (if sign = '-' then -((oh * 60 + om : Nat) : Int) else ((oh * 60 + om : Nat) : Int)))
      else none
    else none

/-- `datetime.fromisoformat`, for the grammar the script can encounter:
`YYYY-MM-DD`, optionally followed by a one-character separator and
`HH:MM[:SS]`, optionally followed by `±HH:MM`.  (Pre-3.11 CPython accepts any
single separator character; fractional seconds and `±HH:MM:SS` offsets are
not modelled, the script never produces them.) -/
def fromisoCore (s : Str) : Option PyDatetime := do
  let (y, r1) ← parseFixed 4 0 s
  let r2 ← expectChar '-' r1
  let (mo, r3) ← parseFixed 2 0 r2
  let r4 ← expectChar '-' r3
  let (d, r5) ← parseFixed 2 0 r4
  match r5 with
  | [] => mkDatetime y mo d 0 0 0 none
  | _sep :: r6 => do
    let (h, r7) ← parseFixed 2 0 r6
    let r8 ← expectChar ':' r7
    let (mi, r9) ← parseFixed 2 0 r8
    let (sec, r10) ←
      match r9 with
      | ':' :: rest => parseFixed 2 0 rest
      | _ => some (0, r9)
    let off ← parseOffSuffix r10
    mkDatetime y mo d h mi sec off

/-- `datetime.fromisoformat` on a string; raises `ValueError` on failure. -/
def fromisoformat (s : Str) : Except PyErr PyDatetime :=
  match fromisoCore s with
  | some d => .ok d
  | none => .error .valueError

/-- Decimal digits of a number, left-padded with zeros to width `w`. -/
def padNum (w n : Nat) : Str :=
  let ds := Nat.toDigits 10 n
  List.replicate (w - ds.length) '0' ++ ds

/-- The `±HH:MM` suffix `datetime.isoformat` prints for aware values. -/
def offsetSuffix : Option Int → Str
  | none => []
  | some off =>
    (if off < 0 then '-' else '+') ::
      (padNum 2 (off.natAbs / 60) ++ ':' :: padNum 2 (off.natAbs % 60))

/-- `datetime.isoformat()`: `YYYY-MM-DDTHH:MM:SS` plus the offset suffix. -/
def isoformat (d : PyDatetime) : Str :=
  padNum 4 d.year ++ '-' :: padNum 2 d.month ++ '-' :: padNum 2 d.day ++
    'T' :: padNum 2 d.hour ++ ':' :: padNum 2 d.minute ++ ':' :: padNum 2 d.second ++
    offsetSuffix d.offsetMin

/-- Days since 1970-01-01 of a proleptic Gregorian date (Howard Hinnant's
`days_from_civil`, specialised to years ≥ 1). -/
def daysFromCivil (y m d : Nat) : Int :=
  let y' := if m ≤ 2 then y - 1 else y
  let era := y' / 400
  let yoe := y' % 400
  let mp := if 2 < m then m - 3 else m + 9
  let doy := (153 * mp + 2) / 5 + d - 1
  let doe := yoe * 365 + yoe / 4 - yoe / 100 + doy
  ((era * 146097 + doe : Nat) : Int) - 719468

/-- Seconds since the epoch, ignoring the offset (the naive reading). -/
def naiveSecs (d : PyDatetime) : Int :=
  daysFromCivil d.year d.month d.day * 86400 +
    ((d.hour * 3600 + d.minute * 60 + d.second : Nat) : Int)

/-- Seconds since the epoch of the instant an aware value denotes. -/
def instantOf (d : PyDatetime) : Int := naiveSecs d - (d.offsetMin.getD 0) * 60

/-- `a <= b` on datetimes: aware values compare as instants, naive values
field-wise; mixing naive and aware raises `TypeError`. -/
def pyLeDT (a b : PyDatetime) : Except PyErr Bool :=
  match a.offsetMin, b.offsetMin with
  | none, none => .ok (decide (naiveSecs a ≤ naiveSecs b))
  | some _, some _ => .ok (decide (instantOf a ≤ instantOf b))
  | _, _ => .error .typeError

/-- `a - b` on datetimes, as whole seconds of the resulting `timedelta`;
mixing naive and aware raises `TypeError`. -/
def pySubDT (a b : PyDatetime) : Except PyErr Int :=
  match a.offsetMin, b.offsetMin with
  | none, none => .ok (naiveSecs a - naiveSecs b)
  | some _, some _ => .ok (instantOf a - instantOf b)
  | _, _ => .error .typeError

/-- A normalized promotion, i.e. one dict appended to `result` by
`parse_free_now_items` (`image` keeps whatever JSON value
`pick_best_image` produced). -/
structure Item where
  title : Str
  image : JVal
  url : Str
  ends_at_utc : Str
  ends_at_local : Str

/-- The image-type priority list of `pick_best_image`. -/
def prioTypes : List Str :=
  ["OfferImageTall".data, "DieselStoreFrontTall".data, "VaultClosed".data,
    "DieselStoreFrontWide".data, "OfferImageWide".data, "Thumbnail".data]

/-- The dict comprehension `{img.get("type"): img.get("url") for img in
key_images if img.get("url")}` (unhashable keys raise `TypeError`). -/
def buildByType (imgs : List JVal) : Except PyErr (List (JVal × JVal)) :=
  imgs.foldlM (fun acc img => do
    let u ← pyGet img "url".data
    if pyTruthy u then
      let t ← pyGet img "type".data
      if pyHashable t then pure (dictUpsert acc t u) else throw .typeError
    else pure acc) []

/-- The `for t in prio: if t in by_type: return by_type[t]` loop. -/
def firstPrioFind (byType : List (JVal × JVal)) : List Str → Option JVal
  | [] => none
  | t :: ts =>
    match dictFindScalar byType (.str t) with
    | some u => some u
    | none => firstPrioFind byType ts

/-- `pick_best_image(key_images)`. -/
def pick_best_image (kis : JVal) : Except PyErr JVal := do
  if !pyTruthy kis then return .null
  let imgs ← pyIterList kis
  let byType ← buildByType imgs
  match firstPrioFind byType prioTypes with
  | some u => return u
  | none => do
    let k0 ← pyIndex0 kis
    pyGet k0 "url".data

/-- `str(v)` as an f-string interpolation renders it (containers, which the
script never interpolates, are elided to a fixed marker). -/
def pyStrOf (v : JVal) : Str :=
  match v with
  | .null => "None".data
  | .bool b => if b then "True".data else "False".data
  | .num n => if n < 0 then '-' :: Nat.toDigits 10 n.natAbs else Nat.toDigits 10 n.natAbs
  | .str s => s
  | .arr _ => "[...]".data
  | .obj _ => "\x7b...\x7d".data

/-- `STORE_BASE`. -/
def storeBase : Str := "https://store.epicgames.com".data

/-- The `for m in mappings` loop of `build_product_url`: first truthy
`pageSlug` wins. -/
def findMappingSlug : List JVal → Except PyErr JVal
  | [] => .ok .null
  | m :: rest => do
    let ps ← pyGet m "pageSlug".data
    if pyTruthy ps then pySubscript m "pageSlug".data else findMappingSlug rest

/-- The `try`-guarded catalog-namespace slug lookup: any exception leaves
`slug = None`. -/
def mappingsSlugTry (itm : JVal) : JVal :=
  match (do
    let cns ← pyGetD itm "catalogNs".data (.obj [])
    let mraw ← pyGet cns "mappings".data
    let ms ← pyIterList (pyOr mraw (.arr []))
    findMappingSlug ms : Except PyErr JVal) with
  | .ok v => v
  | .error _ => .null

/-- `build_product_url(item)` (with `LOCALE` passed explicitly). -/
def build_product_url (locale : Str) (itm : JVal) : Except PyErr Str := do
  let slug0 := mappingsSlugTry itm
  let slug ←
    if pyTruthy slug0 then pure slug0
    else do
      let p ← pyGet itm "productSlug".data
      let s0 ← if pyTruthy p then pure p else pyGet itm "urlSlug".data
      if pyTruthy s0 then do
        let sw ← pyStartsW s0 "p/".data
        if sw then pure s0 else pure (JVal.str ("p/".data ++ pyStrOf s0))
      else pure s0
  if pyTruthy slug then
    pure (replaceAll
      (replaceAll (storeBase ++ '/' :: locale ++ '/' :: pyStrOf slug) "//".data "/".data)
      "https:/".data "https://".data)
  else do
    let tv ← pyGetD itm "title".data (.str [])
    let q ← pyQuote tv
    pure (storeBase ++ '/' :: locale ++ "/search?q=".data ++ q)

/-- Lines 140–142: `promos = itm.get("promotions") or {}` and
`current = promos.get("promotionalOffers") or []`. -/
def elemCurrent (itm : JVal) : Except PyErr JVal := do
  let promos ← pyGet itm "promotions".data
  let cur ← pyGet (pyOr promos (.obj [])) "promotionalOffers".data
  pure (pyOr cur (.arr []))

/-- Lines 144–147: the `try`-guarded inner offer list (exceptions give `[]`). -/
def elemOffers (current : JVal) : JVal :=
  match (do
    let c0 ← pyIndex0 current
    let o ← pyGet c0 "promotionalOffers".data
    pure (pyOr o (.arr [])) : Except PyErr JVal) with
  | .ok v => v
  | .error _ => .arr []

/-- Line 154–155: `is_free = (ds.get("discountType") == "PERCENTAGE" and
int(ds.get("discountPercentage", 0)) == 0)` — note the uncaught `int(...)`. -/
def elemIsFree (offer : JVal) : Except PyErr Bool := do
  let ds0 ← pyGet offer "discountSetting".data
  let ds := pyOr ds0 (.obj [])
  let dt ← pyGet ds "discountType".data
  if pyEqStr dt "PERCENTAGE".data then
    let dp ← pyGetD ds "discountPercentage".data (.num 0)
    let n ← pyInt dp
    pure (n == 0)
  else pure false

/-- `datetime.fromisoformat(v.replace("Z", "+00:00"))`: `.replace` raises
`AttributeError` on non-strings. -/
def parseDateJ (v : JVal) : Except PyErr PyDatetime :=
  match v with
  | .str s => fromisoformat (replaceAll s "Z".data "+00:00".data)
  | _ => .error .attributeError

/-- Lines 170–172: the `try`-guarded window check
`start_dt_utc <= now_utc <= end_dt_utc` (chained comparison, short-circuit). -/
def windowCheck (now end_dt : PyDatetime) (start_iso : JVal) : Except PyErr Bool := do
  let start_dt ← parseDateJ start_iso
  let c1 ← pyLeDT start_dt now
  if c1 then pyLeDT now end_dt else pure false

/-- Lines 177–188: build the result dict for an element that passed all
filters (`astz` abstracts `datetime.astimezone(LOCAL_TZ)`, which consults the
external timezone database). -/
def emitItem (locale : Str) (astz : PyDatetime → PyDatetime) (itm : JVal)
    (end_dt : PyDatetime) : Except PyErr (Option Item) :=
  match pyGet itm "title".data with
  | .error e => .error e
  | .ok t =>
    match pyStripOr t with
    | .error e => .error e
    | .ok title =>
      match pyGet itm "keyImages".data with
      | .error e => .error e
      | .ok kis =>
        match pick_best_image (pyOr kis (.arr [])) with
        | .error e => .error e
        | .ok img =>
          match build_product_url locale itm with
          | .error e => .error e
          | .ok url =>
            .ok (some ⟨title, img, url, isoformat end_dt, isoformat (astz end_dt)⟩)

/-- Lines 157–175: everything from the `if not end_iso` check on.  Split out
so that inversion lemmas can follow the control flow. -/
def processTail (locale : Str) (now : PyDatetime) (astz : PyDatetime → PyDatetime)
    (itm : JVal) (end_iso start_iso : JVal) (is_free : Bool) : Except PyErr (Option Item) :=
  if !pyTruthy end_iso then .ok none
  else
    match parseDateJ end_iso with
    | .error _ => .ok none
    | .ok end_dt =>
      match pyLeDT end_dt now with
      | .error e => .error e
      | .ok le =>
        if le then .ok none
        else if !is_free && pyTruthy start_iso then
          match windowCheck now end_dt start_iso with
          | .error _ => .ok none
          | .ok w => if w then emitItem locale astz itm end_dt else .ok none
        else emitItem locale astz itm end_dt

/-- One iteration of the `for itm in elements` loop of
`parse_free_now_items`: `ok none` is `continue`, an `error` is an uncaught
exception that aborts the whole extraction. -/
def processElement (locale : Str) (now : PyDatetime) (astz : PyDatetime → PyDatetime)
    (itm : JVal) : Except PyErr (Option Item) :=
  match elemCurrent itm with
  | .error e => .error e
  | .ok current =>
    if !pyTruthy current then .ok none
    else
      if !pyTruthy (elemOffers current) then .ok none
      else
        match pyIndex0 (elemOffers current) with
        | .error e => .error e
        | .ok offer =>
          match pyGet offer "endDate".data with
          | .error e => .error e
          | .ok end_iso =>
            match pyGet offer "startDate".data with
            | .error e => .error e
            | .ok start_iso =>
              match elemIsFree offer with
              | .error e => .error e
              | .ok is_free => processTail locale now astz itm end_iso start_iso is_free

/-- Line 135: the nested default lookups producing `elements`, plus the
`for` loop's demand that it be iterable. -/
def extractElements (payload : JVal) : Except PyErr (List JVal) := do
  let d1 ← pyGetD payload "data".data (.obj [])
  let d2 ← pyGetD d1 "Catalog".data (.obj [])
  let d3 ← pyGetD d2 "searchStore".data (.obj [])
  let els ← pyGetD d3 "elements".data (.arr [])
  pyIterList els

/-- The sort key comparison: code-point order on the `ends_at_utc` strings. -/
def itemLe (a b : Item) : Bool := lexLe a.ends_at_utc b.ends_at_utc

/-- The loop body of lines 139–188: walk the elements, appending the built
item of each non-skipped element to the accumulator `acc`; an uncaught
exception aborts the loop. -/
def collectItems (locale : Str) (now : PyDatetime) (astz : PyDatetime → PyDatetime) :
    List JVal → List Item → Except PyErr (List Item)
  | [], acc => .ok acc
  | itm :: rest, acc =>
    match processElement locale now astz itm with
    | .error e => .error e
    | .ok none => collectItems locale now astz rest acc
    | .ok (some it) => collectItems locale now astz rest (acc ++ [it])

/-- `parse_free_now_items(payload, tz)`. -/
def parse_free_now_items (locale : Str) (now : PyDatetime)
    (astz : PyDatetime → PyDatetime) (payload : JVal) : Except PyErr (List Item) :=
  match extractElements payload with
  | .error e => .error e
  | .ok elems =>
    match collectItems locale now astz elems [] with
    | .error e => .error e
    | .ok items => .ok (pySortBy itemLe items)

/-- `fetch_free_now(tz)`: each list entry is the outcome of
`http_get_json` for one endpoint (the HTTP transport is external); a parse
failure falls through to the next endpoint, and exhaustion raises
`RuntimeError`. -/
def fetch_free_now (locale : Str) (now : PyDatetime) (astz : PyDatetime → PyDatetime) :
    List (Except PyErr JVal) → Except PyErr (List Item)
  | [] => .error .runtimeError
  | ep :: rest =>
    match ep with
    | .error _ => fetch_free_now locale now astz rest
    | .ok payload =>
      match parse_free_now_items locale now astz payload with
      | .ok items => .ok items
      | .error _ => fetch_free_now locale now astz rest

/-- Literal template segment of `render_email_html`. -/
def imgTpl1 : Str := "\n              <tr>\n                <td align=\"center\" style=\"padding:16px 16px 0 16px;\">\n                  <a href=\"".data

/-- Literal template segment of `render_email_html`. -/
def imgTpl2 : Str := "\" target=\"_blank\" style=\"text-decoration:none;\">\n                    <img src=\"".data

/-- Literal template segment of `render_email_html`. -/
def imgTpl3 : Str := "\" width=\"568\" alt=\"".data

/-- Literal template segment of `render_email_html`. -/
def imgTpl4 : Str := " cover art\"\n                         style=\"display:block; width:100%; max-width:100%; height:auto; border-radius:14px; border:0; outline:none; text-decoration:none;\n                                box-shadow:0 0 0 2px #17202b, 0 12px 28px rgba(0, 200, 255, 0.2);\" />\n                  </a>\n                </td>\n              </tr>\n            ".data

/-- Literal template segment of `render_email_html`. -/
def cardTpl1 : Str := "\n          <!-- GAME CARD -->\n          <tr>\n            <td class=\"p-24\" align=\"center\" style=\"padding:24px;\">\n              <table role=\"presentation\" width=\"100%\" cellspacing=\"0\" cellpadding=\"0\" border=\"0\"\n                     style=\"background:#0b0f15; border:1px solid #1e2a38; border-radius:18px;\">\n                ".data

/-- Literal template segment of `render_email_html`. -/
def cardTpl2 : Str := "\n                <tr>\n                  <td align=\"center\" style=\"padding:16px 20px 0 20px; text-align:center;\">\n                    <div class=\"title\" style=\"font-family:Segoe UI, Roboto, Helvetica, Arial, sans-serif; font-weight:700; font-size:24px; line-height:30px; color:#eef4ff; text-align:center;\">\n                      ".data

/-- Literal template segment of `render_email_html`. -/
def cardTpl3 : Str := "\n                    </div>\n                    <div class=\"meta\" style=\"font-family:Segoe UI, Roboto, Helvetica, Arial, sans-serif; font-size:16px; line-height:24px; color:#a7b1c2; margin-top:8px; text-align:center;\">\n                      ".data

/-- Literal template segment of `render_email_html`. -/
def cardTpl4 : Str := "\n                    </div>\n                  </td>\n                </tr>\n                <tr>\n                  <td align=\"center\" style=\"padding:18px 20px 24px 20px;\">\n                    <table role=\"presentation\" class=\"btn\" cellspacing=\"0\" cellpadding=\"0\" border=\"0\" align=\"center\">\n                      <tr>\n                        <td align=\"center\" bgcolor=\"#00C2FF\" style=\"border-radius:14px;\">\n                          <a href=\"".data

/-- Literal template segment of `render_email_html`. -/
def cardTpl5 : Str := "\" target=\"_blank\"\n                             style=\"font-family:Segoe UI, Roboto, Helvetica, Arial, sans-serif; font-size:20px; font-weight:800; line-height:20px;\n                                    text-decoration:none; padding:18px 28px; display:inline-block; color:#0b0e13;\">\n                            VIEW GAME\n                          </a>\n                        </td>\n                      </tr>\n                    </table>\n                  </td>\n                </tr>\n              </table>\n            </td>\n          </tr>\n        ".data

/-- Literal template segment of `render_email_html`. -/
def emptyCardsHtml : Str := "\n          <tr>\n            <td align=\"center\" style=\"padding:24px;\">\n              <table role=\"presentation\" width=\"100%\" cellspacing=\"0\" cellpadding=\"0\" border=\"0\"\n                     style=\"background:#0b0f15; border:1px solid #1e2a38; border-radius:18px;\">\n                <tr>\n                  <td align=\"center\" style=\"padding:24px;\">\n                    <div style=\"font-family:Segoe UI, Roboto, Helvetica, Arial, sans-serif; color:#a7b1c2; font-size:15px; line-height:22px; text-align:center;\">\n                      No \"FREE NOW\" games at the moment.\n                    </div>\n                  </td>\n                </tr>\n              </table>\n            </td>\n          </tr>\n        ".data

/-- Literal template segment of `render_email_html`. -/
def bodyTpl1 : Str := "<!DOCTYPE html>\n<html lang=\"en\" xmlns:v=\"urn:schemas-microsoft-com:vml\" xmlns:o=\"urn:schemas-microsoft-com:office:office\">\n  <head>\n    <meta charset=\"utf-8\">\n    <meta name=\"viewport\" content=\"width=device-width,initial-scale=1.0\"/>\n    <meta name=\"x-apple-disable-message-reformatting\">\n    <title>".data

/-- Literal template segment of `render_email_html`. -/
def bodyTpl2 : Str := "</title>\n    <style>\n      @media screen and (max-width: 600px) \x7b\n        .container \x7b width: 100% !important; \x7d\n        .p-24 \x7b padding: 16px !important; \x7d\n        .title \x7b font-size: 22px !important; line-height: 28px !important; \x7d\n        .meta \x7b font-size: 14px !important; line-height: 20px !important; \x7d\n        .btn a \x7b padding: 18px 24px !important; font-size: 18px !important; \x7d\n      \x7d\n    </style>\n  </head>\n  <body style=\"margin:0; padding:0; background:#0b0e13; color:#e6e6e6; -webkit-font-smoothing:antialiased;\">\n    <center role=\"article\" aria-roledescription=\"email\" lang=\"en\" style=\"width:100%; background:#0b0e13;\">\n      <div style=\"display:none; max-height:0; overflow:hidden; mso-hide:all;\">\n        ".data

/-- Literal template segment of `render_email_html`. -/
def bodyTpl3 : Str := "\n      </div>\n      <table role=\"presentation\" cellspacing=\"0\" cellpadding=\"0\" border=\"0\" width=\"100%\" style=\"background:#0b0e13;\">\n        <tr>\n          <td align=\"center\" style=\"padding:24px;\">\n            <table role=\"presentation\" class=\"container\" cellspacing=\"0\" cellpadding=\"0\" border=\"0\" width=\"600\"\n                   style=\"width:600px; max-width:600px; background:#0f131a; border-radius:20px; box-shadow:0 10px 30px rgba(0,0,0,0.45);\">\n              <tr>\n                <td align=\"center\" style=\"padding:28px 28px 8px 28px;\">\n                  <img src=\"https://upload.wikimedia.org/wikipedia/commons/thumb/3/31/Epic_Games_logo.svg/250px-Epic_Games_logo.svg.png\" width=\"36\" height=\"36\" alt=\"Epic\"\n                       style=\"display:block; border:0; outline:none; text-decoration:none;\"/>\n                  <div style=\"font-family:Segoe UI, Roboto, Helvetica, Arial, sans-serif; font-weight:700; font-size:24px; line-height:30px; margin-top:8px; letter-spacing:0.2px; text-align:center;\">\n                    ".data

/-- Literal template segment of `render_email_html`. -/
def bodyTpl4 : Str := "\n                  </div>\n                  <div style=\"font-family:Segoe UI, Roboto, Helvetica, Arial, sans-serif; color:#a7b1c2; font-size:14px; line-height:22px; margin-top:6px; text-align:center;\">\n                    See the latest free Epic Games this week.\n                  </div>\n                </td>\n              </tr>\n              <tr><td style=\"height:12px;\"></td></tr>\n              ".data

/-- Literal template segment of `render_email_html`. -/
def bodyTpl5 : Str := "\n              <tr>\n                <td align=\"center\" style=\"padding:4px 24px 28px 24px;\">\n                  <div style=\"font-family:Segoe UI, Roboto, Helvetica, Arial, sans-serif; font-size:12px; line-height:18px; color:#78869a; text-align:center;\">\n                    You\x27re receiving this because you set up Epic Games - Free Game Checker.\n                  </div>\n                  <div style=\"font-family:Segoe UI, Roboto, Helvetica, Arial, sans-serif; font-size:12px; line-height:18px; color:#495468; margin-top:4px; text-align:center;\">\n                    Tip: Add to contacts to avoid spam.\n                  </div>\n                </td>\n              </tr>\n            </table>\n          </td>\n        </tr>\n      </table>\n    </center>\n  </body>\n</html>".data

/-- `", ".join(xs)`-style joining. -/
def joinWith (sep : Str) : List Str → Str
  | [] => []
  | [x] => x
  | x :: y :: xs => x ++ sep ++ joinWith sep (y :: xs)

/-- The fallback header `"Epic Free Games: <titles>"` / `"Epic Free Games"`. -/
def defaultHeader (titles : List Str) : Str :=
  if !titles.isEmpty then "Epic Free Games: ".data ++ joinWith ", ".data titles
  else "Epic Free Games".data

/-- The preheader line. -/
def preheaderOf (titles : List Str) : Str :=
  if !titles.isEmpty then "New \x27FREE NOW\x27 games: ".data ++ joinWith ", ".data titles
  else "No new \x27FREE NOW\x27 games right now.".data

/-- The nested `fmt_local` helper: `datetime.fromisoformat` on the stored
string, then conversion to the viewer timezone and `strftime`-based
formatting.  Everything after the parse (astimezone, strftime, `lstrip`, the
timezone abbreviation) consults the external timezone database and is
abstracted as `localFmt`. -/
def fmt_local (localFmt : PyDatetime → Str) (iso : Str) : Except PyErr Str :=
  (fromisoformat iso).map localFmt

/-- The `img_block` f-string with its three interpolations filled in. -/
def imgBlockOf (url img title : Str) : Str :=
  imgTpl1 ++ url ++ imgTpl2 ++ img ++ imgTpl3 ++ title ++ imgTpl4

/-- One game card (lines 226–281): titles and URLs are HTML-escaped, the
image is `html.escape(g["image"] or "")` (raising on truthy non-strings,
exactly as the script would), and the expiry line is escaped after
formatting. -/
def cardOf (localFmt : PyDatetime → Str) (g : Item) : Except PyErr Str :=
  let title := htmlEscape g.title
  let url := htmlEscape g.url
  match pyEscapeJ (pyOr g.image (.str [])) with
  | .error e => .error e
  | .ok img =>
    match fmt_local localFmt g.ends_at_local with
    | .error e => .error e
    | .ok endsLocal =>
      let ends_str := "Free until ".data ++ endsLocal
      let img_block := if !img.isEmpty then imgBlockOf url img title else []
      .ok (cardTpl1 ++ img_block ++ cardTpl2 ++ title ++ cardTpl3 ++
        htmlEscape ends_str ++ cardTpl4 ++ url ++ cardTpl5)

/-- The `for g in items: cards.append(...)` loop of `render_email_html`. -/
def buildCards (localFmt : PyDatetime → Str) : List Item → Except PyErr (List Str)
  | [] => .ok []
  | g :: gs =>
    match cardOf localFmt g with
    | .error e => .error e
    | .ok c =>
      match buildCards localFmt gs with
      | .error e => .error e
      | .ok cs => .ok (c :: cs)

/-- The full document assembled from the card blocks. -/
def assembleBody (dynamic_title preheader cards_html : Str) : Str :=
  bodyTpl1 ++ htmlEscape dynamic_title ++ bodyTpl2 ++ htmlEscape preheader ++
    bodyTpl3 ++ htmlEscape dynamic_title ++ bodyTpl4 ++ cards_html ++ bodyTpl5

/-- `render_email_html(items, tzname, header_title)`.  The timezone name
only feeds the abstracted `localFmt`; the returned document is the full
template with the escaped dynamic title (twice), the escaped preheader and
the card blocks interpolated. -/
def render_email_html (items : List Item) (localFmt : PyDatetime → Str)
    (header_title : Option Str) : Except PyErr Str :=
  let titles := items.map (fun g => g.title)
  let dynamic_title :=
    match header_title with
    | some h => if !h.isEmpty then h else defaultHeader titles
    | none => defaultHeader titles
  let preheader := preheaderOf titles
  match buildCards localFmt items with
  | .error e => .error e
  | .ok cards =>
    let cards_html := if cards.isEmpty then emptyCardsHtml else joinWith "\n".data cards
    .ok (assembleBody dynamic_title preheader cards_html)

/-- Environment-derived configuration, already parsed (the env interface is
external to the program). -/
structure Config where
  minHoursBetweenRuns : Int
  smtpHost : Str
  smtpPort : Int
  emailTo : List Str
  locale : Str

/-- The `if not (SMTP_HOST and SMTP_PORT and EMAIL_TO)` configuration check. -/
def sendConfigured (cfg : Config) : Bool :=
  !cfg.smtpHost.isEmpty && cfg.smtpPort != 0 && !cfg.emailTo.isEmpty

/-- `send_email(subject, html_body)`: returns `False` without raising when
the transport is unconfigured; otherwise the whole SMTP session (connect,
opportunistic STARTTLS, optional login, `sendmail`) is external and its
outcome is the `smtp` parameter — success yields `True`, an exception
propagates to the caller. -/
def send_email (cfg : Config) (smtp : Except PyErr Unit)
    (_subject _html_body : Str) : Except PyErr Bool :=
  if !sendConfigured cfg then .ok false
  else smtp.map (fun _ => true)

/-- The persisted run state as `main` reads it: `load_state` guarantees the
shape `{"notified": <dict>, "last_success_iso": <value>}` for fresh states,
and the model assumes the `notified` field of a loaded state is a dict. -/
structure RunState where
  notified : List (Str × JVal)
  last_success_iso : JVal

/-- Observable outcome of one `main()` invocation: the exit code, whether a
fetch was attempted, whether `sent` ended up `True`, the successfully
dispatched message (subject, body) if any, the state dict passed to
`save_state`, and whether `save_state` was reached at all. -/
structure RunResult where
  exitCode : Nat
  fetched : Bool
  sendSucceeded : Bool
  sentMail : Option (Str × Str)
  finalState : RunState
  saveAttempted : Bool

/-- The dedupe identity key `f"{it['title']}|{it['ends_at_utc']}"`. -/
def itemKey (it : Item) : Str := it.title ++ '|' :: it.ends_at_utc

/-- `notified.get(key)` (missing keys read as `None`). -/
def notifiedLookup (notified : List (Str × JVal)) (k : Str) : JVal :=
  (dictFind notified k).getD .null

/-- Lines 418–423: the "new" subset — items whose key is not truthy in
`notified`. -/
def newItemsOf (notified : List (Str × JVal)) (items : List Item) : List Item :=
  items.filter (fun it => !pyTruthy (notifiedLookup notified (itemKey it)))

/-- `notified[key] = True`, updating in place or appending. -/
def dictSet (kvs : List (Str × JVal)) (k : Str) (v : JVal) : List (Str × JVal) :=
  match kvs with
  | [] => [(k, v)]
  | kv :: rest => if kv.1 = k then (k, v) :: rest else kv :: dictSet rest k v

/-- Lines 441–444: after a successful send, mark the keys of ALL currently
fetched items. -/
def markAll (notified : List (Str × JVal)) (items : List Item) : List (Str × JVal) :=
  items.foldl (fun m it => dictSet m (itemKey it) (.bool true)) notified

/-- Lines 400–407: does the `MIN_HOURS_BETWEEN_RUNS` guard fire?  Any
exception inside the `try` (unparseable or non-string timestamp, naive/aware
subtraction mismatch) is swallowed by `except: pass`, so those cases answer
`false`. -/
def intervalGuardSkips (cfg : Config) (st : RunState) (now : PyDatetime) : Bool :=
  if cfg.minHoursBetweenRuns > 0 && pyTruthy st.last_success_iso then
    match st.last_success_iso with
    | .str s =>
      match fromisoformat s with
      | .ok last =>
        match pySubDT now last with
        | .ok secs => decide (secs < cfg.minHoursBetweenRuns * 3600)
        | .error _ => false
      | .error _ => false
    | _ => false
  else false

/-- Lines 433–439: `sent = False; try: sent = send_email(...)` — an SMTP
exception is caught, leaving `sent = False`. -/
def sendStep (cfg : Config) (smtp : Except PyErr Unit) (subject body : Str) : Bool :=
  match send_email cfg smtp subject body with
  | .ok b => b
  | .error _ => false

/-- Lines 409–456 of `main()`: everything after the interval guard.  `eps`
lists the `http_get_json` outcomes per endpoint, `smtp` the SMTP-session
outcome.  A render exception propagates (it is raised outside any `try`);
a send exception is caught inside `sendStep`. -/
def runPipeline (cfg : Config) (st : RunState) (now : PyDatetime)
    (eps : List (Except PyErr JVal)) (astz : PyDatetime → PyDatetime)
    (localFmt : PyDatetime → Str) (smtp : Except PyErr Unit) : Except PyErr RunResult :=
  match fetch_free_now cfg.locale now astz eps with
  | .error _ => .ok ⟨1, true, false, none, st, false⟩
  | .ok items =>
    let newIts := newItemsOf st.notified items
    if newIts.isEmpty then
      .ok ⟨0, true, false, none, ⟨st.notified, .str (isoformat now)⟩, true⟩
    else
      let subject := "Epic Free Games: ".data ++ joinWith ", ".data (newIts.map (fun it => it.title))
      match render_email_html newIts localFmt (some subject) with
      | .error e => .error e
      | .ok body =>
        let sent := sendStep cfg smtp subject body
        .ok ⟨0, true, sent, if sent then some (subject, body) else none,
          ⟨if sent then markAll st.notified items else st.notified, .str (isoformat now)⟩, true⟩

/-- `main()`: interval guard first (a firing guard returns 0 without
fetching or saving), then the fetch/dedupe/notify/persist pipeline. -/
def mainRun (cfg : Config) (st : RunState) (now : PyDatetime)
    (eps : List (Except PyErr JVal)) (astz : PyDatetime → PyDatetime)
    (localFmt : PyDatetime → Str) (smtp : Except PyErr Unit) : Except PyErr RunResult :=
  if intervalGuardSkips cfg st now then .ok ⟨0, false, false, none, st, false⟩
  else runPipeline cfg st now eps astz localFmt smtp

/-- Pattern-scanner step for the three-character pattern `<sc`: state 0 = no
progress, 1 = just saw `<`, 2 = just saw `<s`; `none` = pattern found. -/
def scStep (st : Nat) (c : Char) : Option Nat :=
  if c = '<' then some 1
  else if st = 1 ∧ c = 's' then some 2
  else if st = 2 ∧ c = 'c' then none
  else some 0

/-- Run the `<sc` scanner over a string. -/
def scanStr (st : Nat) : Str → Option Nat
  | [] => some st
  | c :: cs =>
    match scStep st c with
    | none => none
    | some st2 => scanStr st2 cs

/-- A string is `scClean` when scanning it from the neutral state finds no
`<sc` and ends back in the neutral state (so no suffix `<` or `<s` is
pending either). -/
def scClean (s : Str) : Prop := scanStr 0 s = some 0

/-- Extract the payload of a successful extraction (fallback `[]`). -/
def getItems (r : Except PyErr (List Item)) : List Item :=
  match r with
  | .ok l => l
  | .error _ => []

/-- Extract a successful run result (fallback is never used below). -/
def getRun (r : Except PyErr RunResult) : RunResult :=
  match r with
  | .ok x => x
  | .error _ => ⟨0, false, false, none, ⟨[], .null⟩, false⟩

/-- Extract a successful string result (fallback `""`). -/
def getStr (r : Except PyErr Str) : Str :=
  match r with
  | .ok s => s
  | .error _ => []

/-- A catalog element that is free right now (0% percentage discount). -/
def freeElem (title slug endIso : Str) : JVal :=
  .obj [("title".data, .str title),
    ("productSlug".data, .str slug),
    ("promotions".data, .obj [("promotionalOffers".data, .arr [
      .obj [("promotionalOffers".data, .arr [
        .obj [("endDate".data, .str endIso),
          ("discountSetting".data, .obj [("discountType".data, .str "PERCENTAGE".data),
            ("discountPercentage".data, .num 0)])]])]])])]

/-- A catalog element with a 50% discount inside a promo window (included
only while `start <= now <= end`). -/
def windowElem (title slug startIso endIso : Str) : JVal :=
  .obj [("title".data, .str title),
    ("productSlug".data, .str slug),
    ("promotions".data, .obj [("promotionalOffers".data, .arr [
      .obj [("promotionalOffers".data, .arr [
        .obj [("endDate".data, .str endIso),
          ("startDate".data, .str startIso),
          ("discountSetting".data, .obj [("discountType".data, .str "PERCENTAGE".data),
            ("discountPercentage".data, .num 50)])]])]])])]

/-- A catalog element whose `discountPercentage` is a non-numeric string
while `discountType` is `PERCENTAGE` — `int("oops")` raises. -/
def badPctElem : JVal :=
  .obj [("title".data, .str "Bad".data),
    ("promotions".data, .obj [("promotionalOffers".data, .arr [
      .obj [("promotionalOffers".data, .arr [
        .obj [("endDate".data, .str "2024-06-10T00:00:00Z".data),
          ("discountSetting".data, .obj [("discountType".data, .str "PERCENTAGE".data),
            ("discountPercentage".data, .str "oops".data)])]])]])])]

/-- Wrap elements in the documented payload path. -/
def payloadWith (els : List JVal) : JVal :=
  .obj [("data".data, .obj [("Catalog".data, .obj [("searchStore".data,
    .obj [("elements".data, .arr els)])])])]

/-- Concrete configuration with a configured transport. -/
def exCfg : Config := ⟨0, "smtp.example.org".data, 587, ["user@example.org".data], "en-US".data⟩

/-- Concrete configuration with an empty recipient list (`send` returns
`False`). -/
def exCfgNoRecipients : Config := ⟨0, "smtp.example.org".data, 587, [], "en-US".data⟩

/-- Concrete configuration with `MIN_HOURS_BETWEEN_RUNS=6`. -/
def exCfgGuard : Config := ⟨6, "smtp.example.org".data, 587, ["user@example.org".data], "en-US".data⟩

/-- Concrete stand-in for the timezone-database-backed local formatting. -/
def exLocalFmt : PyDatetime → Str := fun _ => "Mon, Jun 10, 8:00 PM EDT".data

/-- 2024-06-01T00:00:00+00:00. -/
def exNow1 : PyDatetime := ⟨2024, 6, 1, 0, 0, 0, some 0⟩

/-- 2024-06-02T00:00:00+00:00 (one day later). -/
def exNow2 : PyDatetime := ⟨2024, 6, 2, 0, 0, 0, some 0⟩

/-- A fresh state, as `load_state` returns on first run. -/
def exState0 : RunState := ⟨[], .null⟩

/-- C9 payload: one currently-free item plus one discounted item whose promo
window opens only after `exNow1` (and before `exNow2`). -/
def exPayloadC9 : JVal :=
  payloadWith [freeElem "FreeGame".data "free-game".data "2024-06-10T00:00:00Z".data,
    windowElem "WinGame".data "win-game".data "2024-06-01T12:00:00Z".data "2024-06-10T00:00:00Z".data]

/-- C9 run 1 (send succeeds, everything marked). -/
def exRunC9a : RunResult :=
  getRun (mainRun exCfg exState0 exNow1 [.ok exPayloadC9] id exLocalFmt (.ok ()))

/-- C9 run 2, one day later, same payload, starting from run 1's saved state. -/
def exRunC9b : RunResult :=
  getRun (mainRun exCfg exRunC9a.finalState exNow2 [.ok exPayloadC9] id exLocalFmt (.ok ()))

/-- C2 payload: a single free item that expires between `exNow1` and `exNow2`. -/
def exPayloadC2 : JVal :=
  payloadWith [freeElem "ShortGame".data "short-game".data "2024-06-01T06:00:00Z".data]

/-- C2 run 1: fetch succeeds, send returns `False` (no recipients). -/
def exRunC2a : RunResult :=
  getRun (mainRun exCfgNoRecipients exState0 exNow1 [.ok exPayloadC2] id exLocalFmt (.ok ()))

/-- The items fetched on C2 run 1. -/
def exItemsC2a : List Item := getItems (fetch_free_now exCfgNoRecipients.locale exNow1 id [.ok exPayloadC2])

/-- The items fetched on C2 run 2 (the promotion has expired). -/
def exItemsC2b : List Item := getItems (fetch_free_now exCfgNoRecipients.locale exNow2 id [.ok exPayloadC2])

/-- C3 payload: the malformed-percentage element followed by a perfectly
good free element. -/
def exPayloadC3 : JVal :=
  payloadWith [badPctElem, freeElem "Good".data "good".data "2024-06-10T00:00:00Z".data]

/-- The good element of `exPayloadC3` alone. -/
def exPayloadC3Good : JVal :=
  payloadWith [freeElem "Good".data "good".data "2024-06-10T00:00:00Z".data]

/-- C7 payload: two free items whose end instants and end strings order
oppositely (`+05:00` versus `+00:00` offsets). -/
def exPayloadC7 : JVal :=
  payloadWith [freeElem "A".data "a".data "2025-01-01T00:00:00+05:00".data,
    freeElem "B".data "b".data "2024-12-31T23:00:00+00:00".data]

/-- The extraction result for `exPayloadC7`. -/
def exItemsC7 : List Item := getItems (parse_free_now_items "en-US".data exNow1 id exPayloadC7)

/-- C8 item: a title carrying raw markup. -/
def exItemC8 : Item :=
  ⟨"<script>alert(1)".data, .str "http://img.example/x.png".data,
    "https://u.example/p".data, "2024-06-10T00:00:00+00:00".data,
    "2024-06-09T20:00:00-04:00".data⟩

/-- C8 items: a singleton list with the markup-title item. -/
def exItemsC8 : List Item := [exItemC8]

/-- The rendered document for `exItemsC8`. -/
def exOutC8 : Str := getStr (render_email_html exItemsC8 exLocalFmt none)

/-- A well-formed last-success timestamp one hour before `exNow1`. -/
def exStateRecent : RunState := ⟨[], .str "2024-05-31T23:00:00+00:00".data⟩

/-- A present but unparseable last-success timestamp. -/
def exStateCorrupt : RunState := ⟨[], .str "not-a-date".data⟩

/-- The single item extracted from `exPayloadC3Good` at `exNow1`. -/
def exItemsC6 : List Item := getItems (parse_free_now_items "en-US".data exNow1 id exPayloadC3Good)

/-- Fallback item (never reached in the examples below). -/
def fallbackItem : Item := ⟨[], .null, [], [], []⟩

/-- The items fetched for C1's example run. -/
def exItemsC1 : List Item := getItems (fetch_free_now exCfg.locale exNow1 id [.ok exPayloadC2])

/-- C1 example run: configured transport, SMTP session succeeds. -/
def exRunC1 : RunResult :=
  getRun (mainRun exCfg exState0 exNow1 [.ok exPayloadC2] id exLocalFmt (.ok ()))

/-- C2 example run with a raising SMTP session. -/
def exRunC2err : RunResult :=
  getRun (mainRun exCfg exState0 exNow1 [.ok exPayloadC2] id exLocalFmt (.error .runtimeError))

/-- The items fetched on C9 run 1 / run 2. -/
def exItemsC9a : List Item := getItems (fetch_free_now exCfg.locale exNow1 id [.ok exPayloadC9])

/-- The items fetched on C9 run 2 (window now open). -/
def exItemsC9b : List Item := getItems (fetch_free_now exCfg.locale exNow2 id [.ok exPayloadC9])

/-- The element used for the C6 witness. -/
def exElemC6 : JVal := freeElem "Good".data "good".data "2024-06-10T00:00:00Z".data

/-- The item produced from `exElemC6`. -/
def exItemC6 : Item :=
  match processElement "en-US".data exNow1 id exElemC6 with
  | .ok (some it) => it
  | _ => fallbackItem

/-- An element whose end date is a truthy but unparseable string (skipped by
the guarded `fromisoformat`). -/
def exBadDateElem : JVal := freeElem "BadDate".data "bad-date".data "garbage".data

/-- Second run for the C9 witness: same payload, same instant, starting
from the C1 example run's saved state. -/
def exRunC9w : RunResult :=
  getRun (mainRun exCfg exRunC1.finalState exNow1 [.ok exPayloadC2] id exLocalFmt (.ok ()))

/-- The first inner offer of `exBadDateElem`. -/
def exBadDateOffer : JVal :=
  .obj [("endDate".data, .str "garbage".data),
    ("discountSetting".data, .obj [("discountType".data, .str "PERCENTAGE".data),
      ("discountPercentage".data, .num 0)])]

/-- The `current` offer list of `exBadDateElem`. -/
def exBadDateCurrent : JVal :=
  .arr [.obj [("promotionalOffers".data, .arr [exBadDateOffer])]]

/-- An element whose inner-offer extraction raises inside its `try`
(`current[0]` is a number, so `.get` raises): the guard turns the exception
into an empty offer list. -/
def exOffersRaiseElem : JVal :=
  .obj [("promotions".data, .obj [("promotionalOffers".data, .arr [.num 5])])]

/-- A non-free first offer whose `startDate` is a truthy but unparseable
string, so the guarded window check raises. -/
def exBadStartOffer : JVal :=
  .obj [("endDate".data, .str "2024-06-10T00:00:00Z".data),
    ("startDate".data, .str "garbage".data),
    ("discountSetting".data, .obj [("discountType".data, .str "PERCENTAGE".data),
      ("discountPercentage".data, .num 50)])]

/-- The element carrying `exBadStartOffer`. -/
def exBadStartElem : JVal :=
  .obj [("title".data, .str "BadStart".data),
    ("productSlug".data, .str "bad-start".data),
    ("promotions".data, .obj [("promotionalOffers".data, .arr [
      .obj [("promotionalOffers".data, .arr [exBadStartOffer])]])])]

/-- The `current` offer list of `exBadStartElem`. -/
def exBadStartCurrent : JVal :=
  .arr [.obj [("promotionalOffers".data, .arr [exBadStartOffer])]]

/-! ## Helper lemmas: substrings, escaping, the `<sc` scanner, sorting -/

theorem startsWithL_self_append (p t : Str) : startsWithL p (p ++ t) = true := by
  induction p with
  | nil => rfl
  | cons c cs ih => simpa [startsWithL] using ih

theorem containsSub_nil_pat (s : Str) : containsSub [] s = true := by
  cases s with
  | nil => rfl
  | cons c cs => simp [containsSub, startsWithL]

theorem containsSub_of_startsWith {p s : Str} (h : startsWithL p s = true) :
    containsSub p s = true := by
  cases s with
  | nil =>
    cases p with
    | nil => rfl
    | cons a as => simp [startsWithL] at h
  | cons c cs => simp [containsSub, h]

theorem containsSub_cons_of (p : Str) (c : Char) {cs : Str} (h : containsSub p cs = true) :
    containsSub p (c :: cs) = true := by
  simp [containsSub, h]

theorem startsWithL_append_of {p s : Str} (t : Str) (h : startsWithL p s = true) :
    startsWithL p (s ++ t) = true := by
  induction p generalizing s with
  | nil => rfl
  | cons a as ih =>
    cases s with
    | nil => simp [startsWithL] at h
    | cons b bs =>
      simp only [startsWithL, Bool.and_eq_true, decide_eq_true_eq] at h
      simp only [List.cons_append, startsWithL, Bool.and_eq_true, decide_eq_true_eq]
      exact ⟨h.1, ih h.2⟩

theorem containsSub_append_left {p a : Str} (b : Str) (h : containsSub p a = true) :
    containsSub p (a ++ b) = true := by
  induction a with
  | nil =>
    have : p = [] := by
      cases p with
      | nil => rfl
      | cons x xs => simp [containsSub] at h
    subst this
    exact containsSub_nil_pat b
  | cons c cs ih =>
    simp only [containsSub, Bool.or_eq_true] at h
    rcases h with h | h
    · exact containsSub_of_startsWith (by simpa using startsWithL_append_of b h)
    · exact containsSub_cons_of _ _ (ih h)

theorem containsSub_append_right {p b : Str} (a : Str) (h : containsSub p b = true) :
    containsSub p (a ++ b) = true := by
  induction a with
  | nil => simpa using h
  | cons c cs ih => exact containsSub_cons_of _ _ ih

theorem startsWithL_decomp {p s : Str} (h : startsWithL p s = true) : ∃ y, s = p ++ y := by
  induction p generalizing s with
  | nil => exact ⟨s, rfl⟩
  | cons a as ih =>
    cases s with
    | nil => simp [startsWithL] at h
    | cons b bs =>
      simp only [startsWithL, Bool.and_eq_true, decide_eq_true_eq] at h
      obtain ⟨y, hy⟩ := ih h.2
      exact ⟨y, by rw [List.cons_append, ← hy, h.1]⟩

theorem containsSub_decomp {p s : Str} (h : containsSub p s = true) :
    ∃ x y, s = x ++ p ++ y := by
  induction s with
  | nil =>
    have : p = [] := by
      cases p with
      | nil => rfl
      | cons a as => simp [containsSub] at h
    exact ⟨[], [], by simp [this]⟩
  | cons c cs ih =>
    simp only [containsSub, Bool.or_eq_true] at h
    rcases h with h | h
    · obtain ⟨y, hy⟩ := startsWithL_decomp h
      exact ⟨[], y, by simpa using hy⟩
    · obtain ⟨x, y, hxy⟩ := ih h
      exact ⟨c :: x, y, by simp [hxy]⟩

theorem containsSub_of_decomp (p x y : Str) : containsSub p (x ++ p ++ y) = true := by
  rw [List.append_assoc]
  exact containsSub_append_right x
    (containsSub_of_startsWith (startsWithL_self_append p y))

theorem containsSub_trans {p q s : Str} (hpq : containsSub p q = true)
    (hqs : containsSub q s = true) : containsSub p s = true := by
  obtain ⟨x, y, hs⟩ := containsSub_decomp hqs
  obtain ⟨u, v, hq⟩ := containsSub_decomp hpq
  subst hs
  subst hq
  have : x ++ (u ++ p ++ v) ++ y = (x ++ u) ++ p ++ (v ++ y) := by simp
  rw [this]
  exact containsSub_of_decomp p (x ++ u) (v ++ y)

theorem htmlEscape_append (a b : Str) : htmlEscape (a ++ b) = htmlEscape a ++ htmlEscape b := by
  induction a with
  | nil => rfl
  | cons c cs ih => simp [htmlEscape, ih]

theorem escChar_no_lt (a : Char) : '<' ∉ escChar a := by
  unfold escChar
  split_ifs with h1 h2 h3 h4 h5
  · exact fun hc => absurd hc (by decide)
  · exact fun hc => absurd hc (by decide)
  · exact fun hc => absurd hc (by decide)
  · exact fun hc => absurd hc (by decide)
  · exact fun hc => absurd hc (by decide)
  · intro hc
    rw [List.mem_singleton] at hc
    exact h2 hc.symm

theorem htmlEscape_no_lt {s : Str} : '<' ∉ htmlEscape s := by
  induction s with
  | nil => simp [htmlEscape]
  | cons a as ih =>
    rw [htmlEscape]
    intro hc
    rcases List.mem_append.mp hc with hc | hc
    · exact escChar_no_lt a hc
    · exact ih hc

theorem containsSub_htmlEscape {p s : Str} (h : containsSub p s = true) :
    containsSub (htmlEscape p) (htmlEscape s) = true := by
  obtain ⟨x, y, hs⟩ := containsSub_decomp h
  subst hs
  rw [htmlEscape_append, htmlEscape_append]
  exact containsSub_of_decomp (htmlEscape p) (htmlEscape x) (htmlEscape y)

theorem scanStr_append (st : Nat) (a b : Str) :
    scanStr st (a ++ b) =
      match scanStr st a with
      | none => none
      | some st2 => scanStr st2 b := by
  induction a generalizing st with
  | nil => rfl
  | cons c cs ih =>
    rw [List.cons_append, scanStr, scanStr]
    cases h : scStep st c with
    | none => rfl
    | some st2 => exact ih st2

theorem scClean_append {a b : Str} (ha : scClean a) (hb : scClean b) :
    scClean (a ++ b) := by
  unfold scClean at *
  rw [scanStr_append, ha]
  exact hb

theorem scStep_zero_of_ne_lt {c : Char} (h : c ≠ '<') : scStep 0 c = some 0 := by
  unfold scStep
  simp [h]

theorem scClean_of_no_lt {s : Str} (h : '<' ∉ s) : scClean s := by
  induction s with
  | nil => rfl
  | cons c cs ih =>
    have hc : c ≠ '<' := fun hc => h (hc ▸ List.mem_cons_self c cs)
    have hcs : '<' ∉ cs := fun hm => h (List.mem_cons_of_mem c hm)
    unfold scClean
    rw [scanStr, scStep_zero_of_ne_lt hc]
    exact ih hcs

theorem scClean_htmlEscape (s : Str) : scClean (htmlEscape s) :=
  scClean_of_no_lt htmlEscape_no_lt

theorem scanStr_script_pattern (st : Nat) (y : Str) :
    scanStr st ('<' :: 's' :: 'c' :: y) = none := by
  rw [scanStr]
  have h1 : scStep st '<' = some 1 := by unfold scStep; simp
  rw [h1]
  rfl

theorem not_contains_script_of_scClean {s : Str} (h : scClean s) :
    containsSub "<script>".data s = false := by
  by_contra hcon
  rw [Bool.not_eq_false] at hcon
  obtain ⟨x, y, hs⟩ := containsSub_decomp hcon
  have hpat : "<script>".data = '<' :: 's' :: 'c' :: "ript>".data := rfl
  rw [hpat] at hs
  unfold scClean at h
  rw [hs, List.append_assoc, scanStr_append] at h
  cases hx : scanStr 0 x with
  | none => rw [hx] at h; exact Option.noConfusion h
  | some st2 =>
    rw [hx] at h
    have h2 : scanStr st2 (('<' :: 's' :: 'c' :: "ript>".data) ++ y) = some 0 := h
    rw [show ('<' :: 's' :: 'c' :: "ript>".data) ++ y =
        '<' :: 's' :: 'c' :: ("ript>".data ++ y) from rfl,
      scanStr_script_pattern] at h2
    exact Option.noConfusion h2

theorem scClean_joinWith {sep : Str} (hsep : scClean sep) :
    ∀ {l : List Str}, (∀ x ∈ l, scClean x) → scClean (joinWith sep l)
  | [], _ => rfl
  | [x], h => h x (List.mem_singleton.mpr rfl)
  | x :: y :: xs, h => by
    rw [joinWith]
    exact scClean_append
      (scClean_append (h x (by simp)) hsep)
      (scClean_joinWith hsep (fun z hz => h z (List.mem_cons_of_mem x hz)))

theorem containsSub_joinWith_of_mem {x : Str} (sep : Str) :
    ∀ {l : List Str}, x ∈ l → containsSub x (joinWith sep l) = true := by
  intro l
  induction l with
  | nil => intro hx; exact absurd hx (List.not_mem_nil x)
  | cons y ys ih =>
    intro hx
    rcases List.mem_cons.mp hx with rfl | hx
    · cases ys with
      | nil =>
        rw [joinWith]
        exact containsSub_of_startsWith (by simpa using startsWithL_self_append x [])
      | cons z zs =>
        rw [joinWith, List.append_assoc]
        exact containsSub_of_startsWith (startsWithL_self_append x _)
    · cases ys with
      | nil => exact absurd hx (List.not_mem_nil x)
      | cons z zs =>
        rw [joinWith, List.append_assoc]
        exact containsSub_append_right _ (containsSub_append_right _ (ih hx))

theorem mem_insAfter {le : α → α → Bool} {x z : α} :
    ∀ {l : List α}, z ∈ insAfter le x l ↔ z = x ∨ z ∈ l := by
  intro l
  induction l with
  | nil => simp [insAfter]
  | cons y ys ih =>
    rw [insAfter]
    split
    · simp only [List.mem_cons, ih]
      tauto
    · simp only [List.mem_cons]

theorem mem_foldl_insAfter {le : α → α → Bool} {z : α} :
    ∀ (l acc : List α),
      (z ∈ l.foldl (fun acc x => insAfter le x acc) acc ↔ z ∈ acc ∨ z ∈ l) := by
  intro l
  induction l with
  | nil => intro acc; simp
  | cons x xs ih =>
    intro acc
    rw [List.foldl_cons, ih, mem_insAfter]
    simp only [List.mem_cons]
    tauto

theorem mem_pySortBy {le : α → α → Bool} {z : α} {l : List α} :
    z ∈ pySortBy le l ↔ z ∈ l := by
  unfold pySortBy
  rw [mem_foldl_insAfter]
  simp

theorem pairwise_insAfter {le : α → α → Bool}
    (htot : ∀ a b, (le a b || le b a) = true)
    (htr : ∀ a b c, le a b = true → le b c = true → le a c = true)
    {x : α} :
    ∀ {l : List α}, l.Pairwise (fun a b => le a b = true) →
      (insAfter le x l).Pairwise (fun a b => le a b = true) := by
  intro l
  induction l with
  | nil => intro _; simp [insAfter]
  | cons y ys ih =>
    intro h
    rcases List.pairwise_cons.mp h with ⟨hy, hys⟩
    rw [insAfter]
    split
    · rename_i hle
      refine List.pairwise_cons.mpr ⟨?_, ih hys⟩
      intro z hz
      rcases mem_insAfter.mp hz with rfl | hz
      · exact hle
      · exact hy z hz
    · rename_i hnle
      have hxy : le x y = true := by
        have := htot y x
        rcases Bool.or_eq_true_iff.mp this with h1 | h1
        · exact absurd h1 hnle
        · exact h1
      refine List.pairwise_cons.mpr ⟨?_, h⟩
      intro z hz
      rcases List.mem_cons.mp hz with rfl | hz
      · exact hxy
      · exact htr x y z hxy (hy z hz)

theorem pairwise_pySortBy {le : α → α → Bool}
    (htot : ∀ a b, (le a b || le b a) = true)
    (htr : ∀ a b c, le a b = true → le b c = true → le a c = true)
    (l : List α) :
    (pySortBy le l).Pairwise (fun a b => le a b = true) := by
  unfold pySortBy
  suffices h : ∀ (acc : List α), acc.Pairwise (fun a b => le a b = true) →
      (l.foldl (fun acc x => insAfter le x acc) acc).Pairwise (fun a b => le a b = true) by
    exact h [] (by simp)
  induction l with
  | nil => intro acc hacc; simpa using hacc
  | cons x xs ih =>
    intro acc hacc
    rw [List.foldl_cons]
    exact ih _ (pairwise_insAfter htot htr hacc)

theorem lexLe_total (a b : Str) : (lexLe a b || lexLe b a) = true := by
  induction a generalizing b with
  | nil => simp [lexLe]
  | cons x xs ih =>
    cases b with
    | nil => simp [lexLe]
    | cons y ys =>
      rw [lexLe, lexLe]
      rcases Nat.lt_trichotomy x.toNat y.toNat with h | h | h
      · rw [if_pos h]
        simp
      · rw [if_neg (by omega), if_pos h, if_neg (by omega), if_pos h.symm]
        exact ih ys
      · rw [if_neg (by omega), if_neg (by omega), if_pos h]
        simp

theorem lexLe_trans (a b c : Str) (hab : lexLe a b = true) (hbc : lexLe b c = true) :
    lexLe a c = true := by
  induction a generalizing b c with
  | nil => simp [lexLe]
  | cons x xs ih =>
    cases b with
    | nil => simp [lexLe] at hab
    | cons y ys =>
      cases c with
      | nil => simp [lexLe] at hbc
      | cons z zs =>
        rw [lexLe] at hab hbc ⊢
        by_cases h1 : x.toNat < y.toNat
        · by_cases h2 : y.toNat < z.toNat
          · rw [if_pos (by omega)]
          · rw [if_neg h2] at hbc
            by_cases h3 : y.toNat = z.toNat
            · rw [if_pos (by omega)]
            · rw [if_neg h3] at hbc
              exact absurd hbc (by simp)
        · rw [if_neg h1] at hab
          by_cases h4 : x.toNat = y.toNat
          · rw [if_pos h4] at hab
            by_cases h2 : y.toNat < z.toNat
            · rw [if_pos (by omega)]
            · rw [if_neg h2] at hbc
              by_cases h3 : y.toNat = z.toNat
              · rw [if_pos h3] at hbc
                rw [if_neg (by omega), if_pos (by omega)]
                exact ih ys zs hab hbc
              · rw [if_neg h3] at hbc
                exact absurd hbc (by simp)
          · rw [if_neg h4] at hab
            exact absurd hab (by simp)

/-! ## Helper lemmas: dictionaries, marking, the orchestrator -/

theorem dictFind_dictSet_self (m : List (Str × JVal)) (k : Str) (v : JVal) :
    dictFind (dictSet m k v) k = some v := by
  induction m with
  | nil => simp [dictSet, dictFind]
  | cons kv rest ih =>
    rw [dictSet]
    split
    · rw [dictFind, if_pos rfl]
    · rename_i hne
      rw [dictFind, if_neg hne]
      exact ih

theorem dictFind_dictSet_other (m : List (Str × JVal)) {k2 k : Str} (v : JVal)
    (hne : k2 ≠ k) : dictFind (dictSet m k2 v) k = dictFind m k := by
  induction m with
  | nil => simp [dictSet, dictFind, hne]
  | cons kv rest ih =>
    rw [dictSet]
    split
    · rename_i heq
      have hne2 : ¬ kv.1 = k := by rw [heq]; exact hne
      simp [dictFind, hne, hne2]
    · by_cases hkv : kv.1 = k
      · simp [dictFind, hkv]
      · simp [dictFind, hkv, ih]

theorem markAll_preserve {k : Str} :
    ∀ (items : List Item) (n : List (Str × JVal)), k ∉ items.map itemKey →
      dictFind (markAll n items) k = dictFind n k := by
  intro items
  induction items with
  | nil => intro n _; rfl
  | cons it rest ih =>
    intro n hk
    rw [List.map_cons, List.mem_cons] at hk
    push_neg at hk
    rw [markAll, List.foldl_cons]
    have : rest.foldl (fun m it => dictSet m (itemKey it) (.bool true))
        (dictSet n (itemKey it) (.bool true)) = markAll (dictSet n (itemKey it) (.bool true)) rest := rfl
    rw [this, ih _ hk.2, dictFind_dictSet_other _ _ (fun h => hk.1 h.symm)]

theorem markAll_mem {k : Str} :
    ∀ (items : List Item) (n : List (Str × JVal)), k ∈ items.map itemKey →
      dictFind (markAll n items) k = some (.bool true) := by
  intro items
  induction items with
  | nil => intro n hk; simp at hk
  | cons it rest ih =>
    intro n hk
    rw [markAll, List.foldl_cons]
    have heq : rest.foldl (fun m it => dictSet m (itemKey it) (.bool true))
        (dictSet n (itemKey it) (.bool true)) = markAll (dictSet n (itemKey it) (.bool true)) rest := rfl
    rw [heq]
    by_cases hmem : k ∈ rest.map itemKey
    · exact ih _ hmem
    · rw [List.map_cons, List.mem_cons] at hk
      rcases hk with hk | hk
      · rw [markAll_preserve rest _ hmem, hk, dictFind_dictSet_self]
      · exact absurd hk hmem

theorem newItemsOf_markAll_sub {items1 items2 : List Item} (n : List (Str × JVal))
    (hsub : ∀ it2 ∈ items2, itemKey it2 ∈ items1.map itemKey) :
    newItemsOf (markAll n items1) items2 = [] := by
  rw [newItemsOf, List.filter_eq_nil]
  intro it hit
  rw [notifiedLookup, markAll_mem items1 n (hsub it hit)]
  simp [pyTruthy]

theorem mainRun_ok_notified {cfg : Config} {st : RunState} {now : PyDatetime}
    {eps : List (Except PyErr JVal)} {astz : PyDatetime → PyDatetime}
    {localFmt : PyDatetime → Str} {smtp : Except PyErr Unit} {items : List Item} {r : RunResult}
    (hfetch : fetch_free_now cfg.locale now astz eps = .ok items)
    (hrun : mainRun cfg st now eps astz localFmt smtp = .ok r) :
    (r.sendSucceeded = true → r.finalState.notified = markAll st.notified items) ∧
    (r.sendSucceeded = false → r.finalState.notified = st.notified) := by
  unfold mainRun at hrun
  split at hrun
  · cases hrun
    exact ⟨fun h => absurd h (by simp), fun _ => rfl⟩
  · simp only [runPipeline, hfetch] at hrun
    split at hrun
    · injection hrun with h2
      subst h2
      exact ⟨fun h => absurd h (by simp), fun _ => rfl⟩
    · split at hrun
      · exact Except.noConfusion hrun
      · injection hrun with h2
        subst h2
        constructor
        · intro h
          simp only [RunResult.sendSucceeded] at h
          simp only [h]
          rfl
        · intro h
          simp only [RunResult.sendSucceeded] at h
          simp only [h]
          rfl

theorem sendStep_false {cfg : Config} {smtp : Except PyErr Unit}
    (hfail : (∃ e, smtp = .error e) ∨ sendConfigured cfg = false)
    (subject body : Str) : sendStep cfg smtp subject body = false := by
  unfold sendStep send_email
  rcases hfail with ⟨e, he⟩ | hcfg
  · subst he
    by_cases hc : sendConfigured cfg = true
    · rw [hc]
      rfl
    · rw [Bool.not_eq_true] at hc
      rw [hc]
      rfl
  · rw [hcfg]
    rfl

theorem mainRun_sendfail_state {cfg : Config} {st : RunState} {now : PyDatetime}
    {eps : List (Except PyErr JVal)} {astz : PyDatetime → PyDatetime}
    {localFmt : PyDatetime → Str} {smtp : Except PyErr Unit} {r : RunResult}
    (hfail : (∃ e, smtp = .error e) ∨ sendConfigured cfg = false)
    (hrun : mainRun cfg st now eps astz localFmt smtp = .ok r) :
    r.finalState.notified = st.notified ∧ r.sendSucceeded = false ∧ r.sentMail = none := by
  unfold mainRun at hrun
  split at hrun
  · injection hrun with h2
    subst h2
    exact ⟨rfl, rfl, rfl⟩
  · simp only [runPipeline] at hrun
    split at hrun
    · injection hrun with h2
      subst h2
      exact ⟨rfl, rfl, rfl⟩
    · split at hrun
      · injection hrun with h2
        subst h2
        exact ⟨rfl, rfl, rfl⟩
      · split at hrun
        · exact Except.noConfusion hrun
        · injection hrun with h2
          subst h2
          refine ⟨?_, ?_, ?_⟩ <;> simp only [sendStep_false hfail] <;> rfl

theorem intervalGuard_fires {cfg : Config} {st : RunState} {now : PyDatetime}
    {s : Str} {last : PyDatetime} {secs : Int}
    (hpos : 0 < cfg.minHoursBetweenRuns)
    (hiso : st.last_success_iso = .str s)
    (hparse : fromisoformat s = .ok last)
    (hsub : pySubDT now last = .ok secs)
    (hlt : secs < cfg.minHoursBetweenRuns * 3600) :
    intervalGuardSkips cfg st now = true := by
  have hs : s ≠ [] := by
    intro h
    rw [h] at hparse
    exact Except.noConfusion hparse
  have htr : pyTruthy (JVal.str s) = true := by
    cases s with
    | nil => exact absurd rfl hs
    | cons c cs => rfl
  simp only [intervalGuardSkips, hiso, htr, hparse, hsub]
  simp [hpos, hlt]

theorem intervalGuard_bypass_parse {cfg : Config} {st : RunState} {now : PyDatetime}
    {s : Str} {e : PyErr}
    (hiso : st.last_success_iso = .str s)
    (hbad : fromisoformat s = .error e) :
    intervalGuardSkips cfg st now = false := by
  unfold intervalGuardSkips
  split
  · simp only [hiso, hbad]
  · rfl

/-- Claim C1: in every run where the send step succeeds, the Orchestrator
marks the identity keys of ALL currently-fetched items as notified (by
re-marking the whole fetched list, not just the new subset); and when the
send step does not succeed, the notified map is left exactly as loaded — so
identity keys are added only after a send succeeded in that run. -/
theorem epic_c1_marks_all_on_send_success
    (cfg : Config) (st : RunState) (now : PyDatetime) (eps : List (Except PyErr JVal))
    (astz : PyDatetime → PyDatetime) (localFmt : PyDatetime → Str) (smtp : Except PyErr Unit)
    (items : List Item) (r : RunResult)
    (hfetch : fetch_free_now cfg.locale now astz eps = .ok items)
    (hrun : mainRun cfg st now eps astz localFmt smtp = .ok r) :
    (r.sendSucceeded = true → r.finalState.notified = markAll st.notified items) ∧
    (r.sendSucceeded = false → r.finalState.notified = st.notified) :=
  mainRun_ok_notified hfetch hrun

/-- Witness for C1: a concrete run with a configured transport and a
successful SMTP session marks the fetched item. -/
theorem epic_c1_witness :
    fetch_free_now exCfg.locale exNow1 id [.ok exPayloadC2] = .ok exItemsC1 ∧
    mainRun exCfg exState0 exNow1 [.ok exPayloadC2] id exLocalFmt (.ok ()) = .ok exRunC1 ∧
    exRunC1.sendSucceeded = true ∧
    exRunC1.finalState.notified = markAll exState0.notified exItemsC1 :=
  ⟨by rfl, by rfl, by rfl,
    (epic_c1_marks_all_on_send_success exCfg exState0 exNow1 [.ok exPayloadC2] id exLocalFmt
      (.ok ()) exItemsC1 exRunC1 (by rfl) (by rfl)).1 (by rfl)⟩

/-- Claim C2 counterexample: on run 1 (no recipients, so `send` returns
`False`) the key of the fetched item is classified new and nothing is
marked; but on run 2, with the SAME upstream payload, the promotion has
expired out of extraction, so the identity key does NOT reappear in the
"new" subset — refuting the claim's retry consequence as stated. -/
theorem epic_c2_counterexample :
    (newItemsOf exState0.notified exItemsC2a).map itemKey
        = ["ShortGame|2024-06-01T06:00:00+00:00".data] ∧
    mainRun exCfgNoRecipients exState0 exNow1 [.ok exPayloadC2] id exLocalFmt (.ok ())
        = .ok exRunC2a ∧
    exRunC2a.sendSucceeded = false ∧
    exRunC2a.finalState.notified = exState0.notified ∧
    fetch_free_now exCfgNoRecipients.locale exNow2 id [.ok exPayloadC2] = .ok [] ∧
    newItemsOf exRunC2a.finalState.notified
        (getItems (fetch_free_now exCfgNoRecipients.locale exNow2 id [.ok exPayloadC2])) = [] :=
  ⟨by rfl, by rfl, by rfl, by rfl, by rfl, by rfl⟩

/-- Claim C2 (amended): in every run where the send step does not succeed —
the SMTP session raises or the transport is unconfigured (e.g. empty
recipient list) — no identity key is marked notified and nothing is
dispatched, so the dedupe classifies exactly the same keys as "new" against
any later fetch result; a key reappears on the next run precisely when its
item is still extracted then (an expired promotion drops out of extraction
and therefore does not reappear). -/
theorem epic_c2_send_failure_no_marking
    (cfg : Config) (st : RunState) (now : PyDatetime) (eps : List (Except PyErr JVal))
    (astz : PyDatetime → PyDatetime) (localFmt : PyDatetime → Str) (smtp : Except PyErr Unit)
    (r : RunResult)
    (hfail : (∃ e, smtp = .error e) ∨ sendConfigured cfg = false)
    (hrun : mainRun cfg st now eps astz localFmt smtp = .ok r) :
    r.finalState.notified = st.notified ∧ r.sentMail = none ∧
    ∀ items2, newItemsOf r.finalState.notified items2 = newItemsOf st.notified items2 := by
  obtain ⟨h1, _, h3⟩ := mainRun_sendfail_state hfail hrun
  exact ⟨h1, h3, fun items2 => by rw [h1]⟩

/-- Witness for C2 (amended): a concrete run whose SMTP session raises. -/
theorem epic_c2_witness :
    mainRun exCfg exState0 exNow1 [.ok exPayloadC2] id exLocalFmt (.error .runtimeError)
        = .ok exRunC2err ∧
    exRunC2err.finalState.notified = exState0.notified ∧
    newItemsOf exRunC2err.finalState.notified exItemsC2a = newItemsOf exState0.notified exItemsC2a :=
  ⟨by rfl,
    (epic_c2_send_failure_no_marking exCfg exState0 exNow1 [.ok exPayloadC2] id exLocalFmt
      (.error .runtimeError) exRunC2err (Or.inl ⟨.runtimeError, rfl⟩) (by rfl)).1,
    (epic_c2_send_failure_no_marking exCfg exState0 exNow1 [.ok exPayloadC2] id exLocalFmt
      (.error .runtimeError) exRunC2err (Or.inl ⟨.runtimeError, rfl⟩) (by rfl)).2.2 exItemsC2a⟩

/-- Claim C4: with a positive minimum-hours threshold and a last-success
timestamp that parses (to an offset-aware value, so the subtraction from the
aware `now` is defined) and lies less than the threshold before now, `main`
returns exit code 0 without performing any fetch and without writing the
state file. -/
theorem epic_c4_interval_guard_noop
    (cfg : Config) (st : RunState) (now : PyDatetime) (s : Str) (last : PyDatetime)
    (secs : Int) (eps : List (Except PyErr JVal)) (astz : PyDatetime → PyDatetime)
    (localFmt : PyDatetime → Str) (smtp : Except PyErr Unit)
    (hpos : 0 < cfg.minHoursBetweenRuns)
    (hiso : st.last_success_iso = .str s)
    (hparse : fromisoformat s = .ok last)
    (hsub : pySubDT now last = .ok secs)
    (hlt : secs < cfg.minHoursBetweenRuns * 3600) :
    mainRun cfg st now eps astz localFmt smtp = .ok ⟨0, false, false, none, st, false⟩ := by
  unfold mainRun
  rw [intervalGuard_fires hpos hiso hparse hsub hlt]
  simp

/-- Witness for C4: `MIN_HOURS_BETWEEN_RUNS=6` and a last success one hour
ago skips without fetching. -/
theorem epic_c4_witness :
    0 < exCfgGuard.minHoursBetweenRuns ∧
    exStateRecent.last_success_iso = .str "2024-05-31T23:00:00+00:00".data ∧
    fromisoformat "2024-05-31T23:00:00+00:00".data = .ok ⟨2024, 5, 31, 23, 0, 0, some 0⟩ ∧
    pySubDT exNow1 ⟨2024, 5, 31, 23, 0, 0, some 0⟩ = .ok 3600 ∧
    (3600 : Int) < exCfgGuard.minHoursBetweenRuns * 3600 ∧
    mainRun exCfgGuard exStateRecent exNow1 [] id exLocalFmt (.ok ())
        = .ok ⟨0, false, false, none, exStateRecent, false⟩ :=
  ⟨by decide, by rfl, by rfl, by rfl, by decide,
    epic_c4_interval_guard_noop exCfgGuard exStateRecent exNow1
      "2024-05-31T23:00:00+00:00".data ⟨2024, 5, 31, 23, 0, 0, some 0⟩ 3600 [] id exLocalFmt
      (.ok ()) (by decide) (by rfl) (by rfl) (by rfl) (by decide)⟩

/-- Claim C5: whenever the Catalog Fetcher raises (all endpoints failed) in
a run that reached it (the interval guard did not fire), `main` returns exit
code 1, no save is attempted and the state dict is exactly the loaded one —
no last-success timestamp is written, the notified map is untouched. -/
theorem epic_c5_fetch_failure_exit1
    (cfg : Config) (st : RunState) (now : PyDatetime) (eps : List (Except PyErr JVal))
    (astz : PyDatetime → PyDatetime) (localFmt : PyDatetime → Str) (smtp : Except PyErr Unit)
    (e : PyErr)
    (hguard : intervalGuardSkips cfg st now = false)
    (hfetch : fetch_free_now cfg.locale now astz eps = .error e) :
    mainRun cfg st now eps astz localFmt smtp = .ok ⟨1, true, false, none, st, false⟩ := by
  unfold mainRun
  rw [hguard]
  simp only [Bool.false_eq_true, if_false, runPipeline, hfetch]

/-- Witness for C5: both endpoints fail, the run exits 1 with untouched
state. -/
theorem epic_c5_witness :
    intervalGuardSkips exCfg exState0 exNow1 = false ∧
    fetch_free_now exCfg.locale exNow1 id [.error .runtimeError, .error .valueError]
        = .error .runtimeError ∧
    mainRun exCfg exState0 exNow1 [.error .runtimeError, .error .valueError] id exLocalFmt (.ok ())
        = .ok ⟨1, true, false, none, exState0, false⟩ :=
  ⟨by rfl, by rfl,
    epic_c5_fetch_failure_exit1 exCfg exState0 exNow1 [.error .runtimeError, .error .valueError]
      id exLocalFmt (.ok ()) .runtimeError (by rfl) (by rfl)⟩

/-- Claim C10: a present but unparseable `last_success_iso` silently
bypasses the interval guard — the run is exactly the post-guard pipeline
(fetch and the rest), and every successful pipeline outcome did perform the
fetch; the corrupt timestamp never aborts the run. -/
theorem epic_c10_corrupt_timestamp_proceeds
    (cfg : Config) (st : RunState) (now : PyDatetime) (eps : List (Except PyErr JVal))
    (astz : PyDatetime → PyDatetime) (localFmt : PyDatetime → Str) (smtp : Except PyErr Unit)
    (s : Str) (e : PyErr)
    (hiso : st.last_success_iso = .str s)
    (hbad : fromisoformat s = .error e) :
    mainRun cfg st now eps astz localFmt smtp = runPipeline cfg st now eps astz localFmt smtp ∧
    (∀ r, runPipeline cfg st now eps astz localFmt smtp = .ok r → r.fetched = true) := by
  constructor
  · unfold mainRun
    rw [intervalGuard_bypass_parse hiso hbad]
    simp
  · intro r h
    simp only [runPipeline] at h
    split at h
    · injection h with h2
      subst h2
      rfl
    · split at h
      · injection h with h2
        subst h2
        rfl
      · split at h
        · exact Except.noConfusion h
        · injection h with h2
          subst h2
          rfl

/-- Witness for C10: `MIN_HOURS_BETWEEN_RUNS=6` with `last_success_iso`
equal to `"not-a-date"` proceeds into the pipeline and fetches. -/
theorem epic_c10_witness :
    exStateCorrupt.last_success_iso = .str "not-a-date".data ∧
    fromisoformat "not-a-date".data = .error .valueError ∧
    mainRun exCfgGuard exStateCorrupt exNow1 [.ok exPayloadC2] id exLocalFmt (.ok ())
        = runPipeline exCfgGuard exStateCorrupt exNow1 [.ok exPayloadC2] id exLocalFmt (.ok ()) :=
  ⟨by rfl, by rfl,
    (epic_c10_corrupt_timestamp_proceeds exCfgGuard exStateCorrupt exNow1 [.ok exPayloadC2]
      id exLocalFmt (.ok ()) "not-a-date".data .valueError (by rfl) (by rfl)).1⟩

/-- Claim C9 counterexample: two runs in succession against an unchanged
upstream payload, first send and save successful — yet the second run sends
a notification, because a discounted item's promo window opened between the
runs and it joins the extraction only on run 2. -/
theorem epic_c9_counterexample :
    mainRun exCfg exState0 exNow1 [.ok exPayloadC9] id exLocalFmt (.ok ()) = .ok exRunC9a ∧
    exRunC9a.sendSucceeded = true ∧
    mainRun exCfg exRunC9a.finalState exNow2 [.ok exPayloadC9] id exLocalFmt (.ok ())
        = .ok exRunC9b ∧
    (newItemsOf exRunC9a.finalState.notified exItemsC9b).map itemKey
        = ["WinGame|2024-06-10T00:00:00+00:00".data] ∧
    exRunC9b.sendSucceeded = true :=
  ⟨by rfl, by rfl, by rfl, by rfl, by rfl⟩

/-- Claim C9 (amended): after a run whose send succeeded, every identity key
of the items fetched then is marked; hence a second run whose extraction
yields only items already fetched on the first run (as with an unchanged
payload and no promo window opening or discount change in between) has an
empty "new" subset and sends nothing. -/
theorem epic_c9_second_run_quiet
    (cfg : Config) (st : RunState) (now1 now2 : PyDatetime)
    (eps1 eps2 : List (Except PyErr JVal)) (astz : PyDatetime → PyDatetime)
    (localFmt : PyDatetime → Str) (smtp1 smtp2 : Except PyErr Unit)
    (items1 items2 : List Item) (r1 r2 : RunResult)
    (hf1 : fetch_free_now cfg.locale now1 astz eps1 = .ok items1)
    (hr1 : mainRun cfg st now1 eps1 astz localFmt smtp1 = .ok r1)
    (hsent : r1.sendSucceeded = true)
    (hf2 : fetch_free_now cfg.locale now2 astz eps2 = .ok items2)
    (hsub : ∀ it2 ∈ items2, itemKey it2 ∈ items1.map itemKey)
    (hr2 : mainRun cfg r1.finalState now2 eps2 astz localFmt smtp2 = .ok r2) :
    newItemsOf r1.finalState.notified items2 = [] ∧
    r2.sentMail = none ∧ r2.sendSucceeded = false := by
  have hmark : r1.finalState.notified = markAll st.notified items1 :=
    (mainRun_ok_notified hf1 hr1).1 hsent
  have hempty : newItemsOf r1.finalState.notified items2 = [] := by
    rw [hmark]
    exact newItemsOf_markAll_sub st.notified hsub
  refine ⟨hempty, ?_⟩
  unfold mainRun at hr2
  split at hr2
  · injection hr2 with h2
    subst h2
    exact ⟨rfl, rfl⟩
  · simp only [runPipeline, hf2] at hr2
    rw [hempty] at hr2
    simp only [List.isEmpty_nil, if_true] at hr2
    injection hr2 with h2
    subst h2
    exact ⟨rfl, rfl⟩

/-- Witness for C9 (amended): re-running immediately with the same payload
and extraction instant yields no second notification. -/
theorem epic_c9_witness :
    exRunC1.sendSucceeded = true ∧
    (∀ it2 ∈ exItemsC1, itemKey it2 ∈ exItemsC1.map itemKey) ∧
    newItemsOf exRunC1.finalState.notified exItemsC1 = [] ∧ exRunC9w.sentMail = none :=
  ⟨by rfl, fun it2 h2 => List.mem_map_of_mem itemKey h2,
    (epic_c9_second_run_quiet exCfg exState0 exNow1 exNow1 [.ok exPayloadC2] [.ok exPayloadC2]
      id exLocalFmt (.ok ()) (.ok ()) exItemsC1 exItemsC1 exRunC1 exRunC9w (by rfl) (by rfl)
      (by rfl) (by rfl) (fun it2 h2 => List.mem_map_of_mem itemKey h2) (by rfl)).1,
    (epic_c9_second_run_quiet exCfg exState0 exNow1 exNow1 [.ok exPayloadC2] [.ok exPayloadC2]
      id exLocalFmt (.ok ()) (.ok ()) exItemsC1 exItemsC1 exRunC1 exRunC9w (by rfl) (by rfl)
      (by rfl) (by rfl) (fun it2 h2 => List.mem_map_of_mem itemKey h2) (by rfl)).2.1⟩

theorem emitItem_inv {locale : Str} {astz : PyDatetime → PyDatetime} {itm : JVal}
    {end_dt : PyDatetime} {it : Item}
    (h : emitItem locale astz itm end_dt = .ok (some it)) :
    it.ends_at_utc = isoformat end_dt := by
  unfold emitItem at h
  split at h
  · exact Except.noConfusion h
  · split at h
    · exact Except.noConfusion h
    · split at h
      · exact Except.noConfusion h
      · split at h
        · exact Except.noConfusion h
        · split at h
          · exact Except.noConfusion h
          · injection h with h2
            injection h2 with h3
            subst h3
            rfl

theorem processTail_some_inv {locale : Str} {now : PyDatetime} {astz : PyDatetime → PyDatetime}
    {itm end_iso start_iso : JVal} {is_free : Bool} {it : Item}
    (h : processTail locale now astz itm end_iso start_iso is_free = .ok (some it)) :
    pyTruthy end_iso = true ∧
    ∃ end_dt, parseDateJ end_iso = .ok end_dt ∧ pyLeDT end_dt now = .ok false ∧
      it.ends_at_utc = isoformat end_dt := by
  unfold processTail at h
  split at h
  · injection h with h2
    exact Option.noConfusion h2
  · rename_i hend
    have hendT : pyTruthy end_iso = true := by simpa using hend
    refine ⟨hendT, ?_⟩
    split at h
    · injection h with h2
      exact Option.noConfusion h2
    · rename_i end_dt hparse
      split at h
      · exact Except.noConfusion h
      · rename_i le hle
        split at h
        · injection h with h2
          exact Option.noConfusion h2
        · rename_i hlef
          rw [Bool.not_eq_true] at hlef
          subst hlef
          split at h
          · split at h
            · injection h with h2
              exact Option.noConfusion h2
            · split at h
              · exact ⟨end_dt, hparse, hle, emitItem_inv h⟩
              · injection h with h2
                exact Option.noConfusion h2
          · exact ⟨end_dt, hparse, hle, emitItem_inv h⟩

theorem processElement_some_inv {locale : Str} {now : PyDatetime}
    {astz : PyDatetime → PyDatetime} {itm : JVal} {it : Item}
    (h : processElement locale now astz itm = .ok (some it)) :
    ∃ current offer end_iso,
      elemCurrent itm = .ok current ∧ pyTruthy current = true ∧
      pyTruthy (elemOffers current) = true ∧
      pyIndex0 (elemOffers current) = .ok offer ∧
      pyGet offer "endDate".data = .ok end_iso ∧ pyTruthy end_iso = true ∧
      ∃ end_dt, parseDateJ end_iso = .ok end_dt ∧ pyLeDT end_dt now = .ok false ∧
        it.ends_at_utc = isoformat end_dt := by
  unfold processElement at h
  split at h
  · exact Except.noConfusion h
  · rename_i current hcur
    split at h
    · injection h with h2
      exact Option.noConfusion h2
    · rename_i hcurT0
      have hcurT : pyTruthy current = true := by simpa using hcurT0
      split at h
      · injection h with h2
        exact Option.noConfusion h2
      · rename_i hoffT0
        have hoffT : pyTruthy (elemOffers current) = true := by simpa using hoffT0
        split at h
        · exact Except.noConfusion h
        · rename_i offer hoff
          split at h
          · exact Except.noConfusion h
          · rename_i end_iso hend
            split at h
            · exact Except.noConfusion h
            · split at h
              · exact Except.noConfusion h
              · obtain ⟨hendT, end_dt, hp, hle, hiso⟩ := processTail_some_inv h
                exact ⟨current, offer, end_iso, hcur, hcurT, hoffT, hoff, hend, hendT,
                  end_dt, hp, hle, hiso⟩

theorem pyLeDT_ok_false_lt {a b : PyDatetime} (h : pyLeDT a b = .ok false) :
    ∀ offn, b.offsetMin = some offn → instantOf b < instantOf a := by
  intro offn hb
  unfold pyLeDT at h
  rw [hb] at h
  cases ha : a.offsetMin with
  | none =>
    rw [ha] at h
    exact Except.noConfusion h
  | some offa =>
    rw [ha] at h
    injection h with h2
    have h3 : ¬ instantOf a ≤ instantOf b := of_decide_eq_false h2
    omega

theorem collectItems_mem {locale : Str} {now : PyDatetime} {astz : PyDatetime → PyDatetime} :
    ∀ {elems : List JVal} {acc items : List Item},
      collectItems locale now astz elems acc = .ok items →
      ∀ it ∈ items,
        it ∈ acc ∨ ∃ itm ∈ elems, processElement locale now astz itm = .ok (some it) := by
  intro elems
  induction elems with
  | nil =>
    intro acc items h it hit
    injection h with h2
    subst h2
    exact Or.inl hit
  | cons itm rest ih =>
    intro acc items h it hit
    rw [collectItems] at h
    split at h
    · exact Except.noConfusion h
    · rcases ih h it hit with hacc | ⟨itm2, hmem, hpe⟩
      · exact Or.inl hacc
      · exact Or.inr ⟨itm2, List.mem_cons_of_mem _ hmem, hpe⟩
    · rename_i it2 hpe2
      rcases ih h it hit with hacc | ⟨itm2, hmem, hpe⟩
      · rcases List.mem_append.mp hacc with h3 | h3
        · exact Or.inl h3
        · rw [List.mem_singleton] at h3
          subst h3
          exact Or.inr ⟨itm, List.mem_cons_self _ _, hpe2⟩
      · exact Or.inr ⟨itm2, List.mem_cons_of_mem _ hmem, hpe⟩

theorem parse_ok_inv {locale : Str} {now : PyDatetime} {astz : PyDatetime → PyDatetime}
    {payload : JVal} {items : List Item}
    (h : parse_free_now_items locale now astz payload = .ok items) :
    ∃ elems collected, extractElements payload = .ok elems ∧
      collectItems locale now astz elems [] = .ok collected ∧
      items = pySortBy itemLe collected := by
  unfold parse_free_now_items at h
  split at h
  · exact Except.noConfusion h
  · rename_i elems helems
    split at h
    · exact Except.noConfusion h
    · rename_i collected hcol
      injection h with h2
      exact ⟨elems, collected, helems, hcol, h2.symm⟩

/-- Claim C6: (a) every element contributing an item to the extraction has a
promotional-offer list, a nonempty inner offer list, and a truthy end date
on its first offer — so elements lacking any of these are excluded; (b) every
item of the output stores an `ends_at_utc` printed from an end datetime for
which the script's `end <= now` check evaluated to `False`, i.e. an end
strictly after the `now` captured at the start of extraction. -/
theorem epic_c6_exclusions_and_future_end :
    (∀ (locale : Str) (now : PyDatetime) (astz : PyDatetime → PyDatetime) (itm : JVal)
      (it : Item), processElement locale now astz itm = .ok (some it) →
      ∃ current offer end_iso,
        elemCurrent itm = .ok current ∧ pyTruthy current = true ∧
        pyTruthy (elemOffers current) = true ∧
        pyIndex0 (elemOffers current) = .ok offer ∧
        pyGet offer "endDate".data = .ok end_iso ∧ pyTruthy end_iso = true) ∧
    (∀ (locale : Str) (now : PyDatetime) (astz : PyDatetime → PyDatetime) (payload : JVal)
      (items : List Item), parse_free_now_items locale now astz payload = .ok items →
      ∀ it ∈ items, ∃ end_dt, it.ends_at_utc = isoformat end_dt ∧
        pyLeDT end_dt now = .ok false ∧
        (∀ offn, now.offsetMin = some offn → instantOf now < instantOf end_dt)) := by
  constructor
  · intro locale now astz itm it h
    obtain ⟨current, offer, end_iso, hcur, hcurT, hoffT, hoff, hend, hendT, _⟩ :=
      processElement_some_inv h
    exact ⟨current, offer, end_iso, hcur, hcurT, hoffT, hoff, hend, hendT⟩
  · intro locale now astz payload items h it hit
    obtain ⟨elems, collected, _, hcol, hsorted⟩ := parse_ok_inv h
    subst hsorted
    rcases collectItems_mem hcol it (mem_pySortBy.mp hit) with habs | ⟨itm, _, hpe⟩
    · exact absurd habs (List.not_mem_nil it)
    · obtain ⟨_, _, _, _, _, _, _, _, _, end_dt, _, hle, hiso⟩ := processElement_some_inv hpe
      refine ⟨end_dt, hiso, hle, ?_⟩
      intro offn hoffn
      have hlt := pyLeDT_ok_false_lt hle
      -- `pyLeDT end_dt now = .ok false` with `now` aware gives a strict instant inequality
      exact hlt offn hoffn

/-- Witness for C6: the concrete free element passes extraction with an end
strictly after `exNow1`, and the chain of part (a) holds for it. -/
theorem epic_c6_witness :
    processElement "en-US".data exNow1 id exElemC6 = .ok (some exItemC6) ∧
    (∃ current offer end_iso,
      elemCurrent exElemC6 = .ok current ∧ pyTruthy current = true ∧
      pyTruthy (elemOffers current) = true ∧
      pyIndex0 (elemOffers current) = .ok offer ∧
      pyGet offer "endDate".data = .ok end_iso ∧ pyTruthy end_iso = true) ∧
    parse_free_now_items "en-US".data exNow1 id exPayloadC3Good = .ok exItemsC6 ∧
    (∃ end_dt, exItemC6.ends_at_utc = isoformat end_dt ∧
      pyLeDT end_dt exNow1 = .ok false ∧
      (∀ offn, exNow1.offsetMin = some offn → instantOf exNow1 < instantOf end_dt)) :=
  ⟨by rfl,
    epic_c6_exclusions_and_future_end.1 "en-US".data exNow1 id exElemC6 exItemC6 (by rfl),
    by rfl,
    epic_c6_exclusions_and_future_end.2 "en-US".data exNow1 id exPayloadC3Good exItemsC6
      (by rfl) exItemC6 (List.mem_singleton.mpr (by rfl))⟩

/-- Claim C7 counterexample: with end dates carrying different UTC offsets,
the output order (sorted on the ISO strings) is strictly decreasing in the
actual UTC end instants — the first listed item expires AFTER the second. -/
theorem epic_c7_counterexample :
    parse_free_now_items "en-US".data exNow1 id exPayloadC7 = .ok exItemsC7 ∧
    exItemsC7.map (fun it => it.ends_at_utc)
        = ["2024-12-31T23:00:00+00:00".data, "2025-01-01T00:00:00+05:00".data] ∧
    fromisoformat "2024-12-31T23:00:00+00:00".data = .ok ⟨2024, 12, 31, 23, 0, 0, some 0⟩ ∧
    fromisoformat "2025-01-01T00:00:00+05:00".data = .ok ⟨2025, 1, 1, 0, 0, 0, some 300⟩ ∧
    instantOf ⟨2025, 1, 1, 0, 0, 0, some 300⟩ < instantOf ⟨2024, 12, 31, 23, 0, 0, some 0⟩ :=
  ⟨by rfl, by rfl, by rfl, by rfl, by decide⟩

/-- Claim C7 (amended): the Extractor's output is sorted non-decreasing in
the code-point (lexicographic) order of the `ends_at_utc` strings — the
`list.sort` key.  This coincides with UTC-instant order exactly when all end
dates carry the same UTC offset (upstream data uses `Z` throughout), but not
in general. -/
theorem epic_c7_sorted_by_end_string
    (locale : Str) (now : PyDatetime) (astz : PyDatetime → PyDatetime) (payload : JVal)
    (items : List Item)
    (h : parse_free_now_items locale now astz payload = .ok items) :
    items.Pairwise (fun a b => lexLe a.ends_at_utc b.ends_at_utc = true) := by
  obtain ⟨elems, collected, _, _, hsorted⟩ := parse_ok_inv h
  subst hsorted
  exact pairwise_pySortBy
    (fun a b => lexLe_total a.ends_at_utc b.ends_at_utc)
    (fun a b c => lexLe_trans a.ends_at_utc b.ends_at_utc c.ends_at_utc)
    collected

/-- Witness for C7 (amended): the mixed-offset payload's output is sorted in
string order. -/
theorem epic_c7_witness :
    parse_free_now_items "en-US".data exNow1 id exPayloadC7 = .ok exItemsC7 ∧
    exItemsC7.Pairwise (fun a b => lexLe a.ends_at_utc b.ends_at_utc = true) :=
  ⟨by rfl,
    epic_c7_sorted_by_end_string "en-US".data exNow1 id exPayloadC7 exItemsC7 (by rfl)⟩

/-- Claim C3 counterexample: a payload whose FIRST element has `discountType
= "PERCENTAGE"` with a non-numeric `discountPercentage` makes the whole
extraction raise (`int("oops")` is outside every `try`), losing the
perfectly good second element — and when both endpoints serve this payload
the run exits 1.  Refutes "causes only that element to be skipped; the
Extractor still returns the items built from the remaining elements and the
run does not fail". -/
theorem epic_c3_counterexample :
    parse_free_now_items "en-US".data exNow1 id exPayloadC3 = .error .valueError ∧
    parse_free_now_items "en-US".data exNow1 id exPayloadC3Good = .ok exItemsC6 ∧
    exItemsC6.map (fun it => it.title) = ["Good".data] ∧
    mainRun exCfg exState0 exNow1 [.ok exPayloadC3, .ok exPayloadC3] id exLocalFmt (.ok ())
        = .ok ⟨1, true, false, none, exState0, false⟩ :=
  ⟨by rfl, by rfl, by rfl, by rfl⟩

/-- Claim C3 (amended): (a) an element whose processing results in a skip is
dropped without affecting the items built from the other elements; and each
guarded spot inside the element loop produces exactly such a skip: (b) when
the `try`-guarded inner-offer extraction yields a falsy offer list — which
is what its `except` produces on any exception there — the element is
skipped; (c) a truthy but unparseable end date on the first offer skips the
element (`fromisoformat` is inside a `try`), provided the earlier unguarded
steps — offer navigation and the discount-percentage `int(...)` — succeeded;
(d) a raising window check (e.g. a truthy but unparseable start date on a
non-free offer) likewise skips the element.  Parse exceptions outside these
guarded loop spots (e.g. a non-integer `discountPercentage` with a
`PERCENTAGE` type) instead abort the whole extraction, as the
counterexample shows. -/
theorem epic_c3_guarded_skips_isolated :
    (∀ (locale : Str) (now : PyDatetime) (astz : PyDatetime → PyDatetime)
      (es1 : List JVal) (itm : JVal) (es2 : List JVal) (acc : List Item),
      processElement locale now astz itm = .ok none →
      collectItems locale now astz (es1 ++ itm :: es2) acc
        = collectItems locale now astz (es1 ++ es2) acc) ∧
    (∀ (locale : Str) (now : PyDatetime) (astz : PyDatetime → PyDatetime)
      (itm current : JVal),
      elemCurrent itm = .ok current → pyTruthy current = true →
      pyTruthy (elemOffers current) = false →
      processElement locale now astz itm = .ok none) ∧
    (∀ (locale : Str) (now : PyDatetime) (astz : PyDatetime → PyDatetime)
      (itm current offer : JVal) (s : Str) (si : JVal) (b : Bool) (e : PyErr),
      elemCurrent itm = .ok current → pyTruthy current = true →
      pyTruthy (elemOffers current) = true →
      pyIndex0 (elemOffers current) = .ok offer →
      pyGet offer "endDate".data = .ok (.str s) →
      pyTruthy (JVal.str s) = true →
      pyGet offer "startDate".data = .ok si →
      elemIsFree offer = .ok b →
      fromisoformat (replaceAll s "Z".data "+00:00".data) = .error e →
      processElement locale now astz itm = .ok none) ∧
    (∀ (locale : Str) (now : PyDatetime) (astz : PyDatetime → PyDatetime)
      (itm current offer si : JVal) (s : Str) (end_dt : PyDatetime) (e : PyErr),
      elemCurrent itm = .ok current → pyTruthy current = true →
      pyTruthy (elemOffers current) = true →
      pyIndex0 (elemOffers current) = .ok offer →
      pyGet offer "endDate".data = .ok (.str s) →
      pyTruthy (JVal.str s) = true →
      pyGet offer "startDate".data = .ok si →
      pyTruthy si = true →
      elemIsFree offer = .ok false →
      parseDateJ (.str s) = .ok end_dt →
      pyLeDT end_dt now = .ok false →
      windowCheck now end_dt si = .error e →
      processElement locale now astz itm = .ok none) := by
  refine ⟨?_, ?_, ?_, ?_⟩
  · intro locale now astz es1 itm es2 acc hskip
    induction es1 generalizing acc with
    | nil => simp only [List.nil_append, collectItems, hskip]
    | cons e rest ih =>
      simp only [List.cons_append, collectItems]
      cases hpe : processElement locale now astz e with
      | error err => rfl
      | ok o =>
        cases o with
        | none => exact ih acc
        | some it => exact ih (acc ++ [it])
  · intro locale now astz itm current hcur hcurT hoffF
    unfold processElement
    simp only [hcur, hcurT, hoffF, Bool.not_true, Bool.not_false, Bool.false_eq_true, if_false,
      eq_self_iff_true, if_true]
  · intro locale now astz itm current offer s si b e hcur hcurT hoffT hoff hend hst hsi hisf hbad
    unfold processElement
    simp only [hcur, hcurT, hoffT, Bool.not_true, Bool.false_eq_true, if_false, hoff, hend,
      hsi, hisf]
    unfold processTail
    simp only [hst, Bool.not_true, Bool.false_eq_true, if_false, parseDateJ, hbad]
  · intro locale now astz itm current offer si s end_dt e hcur hcurT hoffT hoff hend hst hsi
      hsiT hisf hpend hle hwin
    unfold processElement
    simp only [hcur, hcurT, hoffT, Bool.not_true, Bool.false_eq_true, if_false, hoff, hend,
      hsi, hisf]
    unfold processTail
    simp only [hst, Bool.not_true, Bool.not_false, Bool.false_eq_true, Bool.true_and, if_false,
      hpend, hle, hsiT, eq_self_iff_true, if_true, hwin]

/-- Witness for C3 (amended): each guarded spot skips its element on a
concrete input — a raising inner-offer extraction, a truthy `"garbage"` end
date, a truthy `"garbage"` start date on a non-free offer — and dropping a
skipped element leaves the items of the other elements untouched. -/
theorem epic_c3_witness :
    processElement "en-US".data exNow1 id exOffersRaiseElem = .ok none ∧
    processElement "en-US".data exNow1 id exBadDateElem = .ok none ∧
    processElement "en-US".data exNow1 id exBadStartElem = .ok none ∧
    collectItems "en-US".data exNow1 id [exElemC6, exBadDateElem] []
      = collectItems "en-US".data exNow1 id [exElemC6] [] :=
  ⟨epic_c3_guarded_skips_isolated.2.1 "en-US".data exNow1 id exOffersRaiseElem
      (JVal.arr [.num 5]) (by rfl) (by rfl) (by rfl),
    epic_c3_guarded_skips_isolated.2.2.1 "en-US".data exNow1 id exBadDateElem exBadDateCurrent
      exBadDateOffer "garbage".data .null true .valueError (by rfl) (by rfl) (by rfl) (by rfl)
      (by rfl) (by rfl) (by rfl) (by rfl) (by rfl),
    epic_c3_guarded_skips_isolated.2.2.2 "en-US".data exNow1 id exBadStartElem exBadStartCurrent
      exBadStartOffer (JVal.str "garbage".data) "2024-06-10T00:00:00Z".data
      ⟨2024, 6, 10, 0, 0, 0, some 0⟩ .valueError (by rfl) (by rfl) (by rfl) (by rfl) (by rfl)
      (by rfl) (by rfl) (by rfl) (by rfl) (by rfl) (by rfl) (by rfl),
    epic_c3_guarded_skips_isolated.1 "en-US".data exNow1 id [exElemC6] exBadDateElem [] []
      (epic_c3_guarded_skips_isolated.2.2.1 "en-US".data exNow1 id exBadDateElem
        exBadDateCurrent exBadDateOffer "garbage".data .null true .valueError (by rfl) (by rfl)
        (by rfl) (by rfl) (by rfl) (by rfl) (by rfl) (by rfl) (by rfl))⟩

theorem pyEscapeJ_ok_inv {v : JVal} {img : Str} (h : pyEscapeJ v = .ok img) :
    ∃ s, img = htmlEscape s := by
  unfold pyEscapeJ at h
  split at h
  · rename_i s
    injection h with h2
    exact ⟨s, h2.symm⟩
  · exact Except.noConfusion h

theorem scClean_imgTpl1 : scClean imgTpl1 := by rfl
theorem scClean_imgTpl2 : scClean imgTpl2 := by rfl
theorem scClean_imgTpl3 : scClean imgTpl3 := by rfl
theorem scClean_imgTpl4 : scClean imgTpl4 := by rfl
theorem scClean_cardTpl1 : scClean cardTpl1 := by rfl
theorem scClean_cardTpl2 : scClean cardTpl2 := by rfl
theorem scClean_cardTpl3 : scClean cardTpl3 := by rfl
theorem scClean_cardTpl4 : scClean cardTpl4 := by rfl
theorem scClean_cardTpl5 : scClean cardTpl5 := by rfl
theorem scClean_emptyCards : scClean emptyCardsHtml := by rfl
theorem scClean_bodyTpl1 : scClean bodyTpl1 := by rfl
theorem scClean_bodyTpl2 : scClean bodyTpl2 := by rfl
theorem scClean_bodyTpl3 : scClean bodyTpl3 := by rfl
theorem scClean_bodyTpl4 : scClean bodyTpl4 := by rfl
theorem scClean_bodyTpl5 : scClean bodyTpl5 := by rfl

theorem scClean_imgBlockOf {url img title : Str} (hu : scClean url) (hi : scClean img)
    (ht : scClean title) : scClean (imgBlockOf url img title) := by
  unfold imgBlockOf
  exact scClean_append (scClean_append (scClean_append (scClean_append
    (scClean_append (scClean_append scClean_imgTpl1 hu) scClean_imgTpl2) hi)
    scClean_imgTpl3) ht) scClean_imgTpl4

theorem scClean_cardOf {localFmt : PyDatetime → Str} {g : Item} {c : Str}
    (h : cardOf localFmt g = .ok c) : scClean c := by
  unfold cardOf at h
  split at h
  · exact Except.noConfusion h
  · rename_i img himg
    split at h
    · exact Except.noConfusion h
    · injection h with h2
      subst h2
      obtain ⟨s, hs⟩ := pyEscapeJ_ok_inv himg
      subst hs
      have himgClean : scClean (htmlEscape s) := scClean_htmlEscape s
      have hblock : scClean (if !(htmlEscape s).isEmpty then
          imgBlockOf (htmlEscape g.url) (htmlEscape s) (htmlEscape g.title) else []) := by
        split
        · exact scClean_imgBlockOf (scClean_htmlEscape _) himgClean (scClean_htmlEscape _)
        · rfl
      exact scClean_append (scClean_append (scClean_append (scClean_append
        (scClean_append (scClean_append (scClean_append (scClean_append
          scClean_cardTpl1 hblock) scClean_cardTpl2) (scClean_htmlEscape _))
          scClean_cardTpl3) (scClean_htmlEscape _)) scClean_cardTpl4)
          (scClean_htmlEscape _)) scClean_cardTpl5

theorem buildCards_ok {localFmt : PyDatetime → Str} :
    ∀ {items : List Item} {cards : List Str}, buildCards localFmt items = .ok cards →
      (∀ c ∈ cards, ∃ g ∈ items, cardOf localFmt g = .ok c) ∧
      (∀ g ∈ items, ∃ c ∈ cards, cardOf localFmt g = .ok c) := by
  intro items
  induction items with
  | nil =>
    intro cards h
    injection h with h2
    subst h2
    exact ⟨fun c hc => absurd hc (List.not_mem_nil c), fun g hg => absurd hg (List.not_mem_nil g)⟩
  | cons g gs ih =>
    intro cards h
    rw [buildCards] at h
    split at h
    · exact Except.noConfusion h
    · rename_i c hc
      split at h
      · exact Except.noConfusion h
      · rename_i cs hcs
        injection h with h2
        subst h2
        obtain ⟨ih1, ih2⟩ := ih hcs
        constructor
        · intro c2 hc2
          rcases List.mem_cons.mp hc2 with rfl | hc2
          · exact ⟨g, List.mem_cons_self _ _, hc⟩
          · obtain ⟨g2, hg2, hcard⟩ := ih1 c2 hc2
            exact ⟨g2, List.mem_cons_of_mem _ hg2, hcard⟩
        · intro g2 hg2
          rcases List.mem_cons.mp hg2 with rfl | hg2
          · exact ⟨c, List.mem_cons_self _ _, hc⟩
          · obtain ⟨c2, hc2, hcard⟩ := ih2 g2 hg2
            exact ⟨c2, List.mem_cons_of_mem _ hc2, hcard⟩

theorem containsSub_card_shape (p t1 ib t2 t3 es t4 u t5 : Str) :
    containsSub p (t1 ++ ib ++ t2 ++ p ++ t3 ++ es ++ t4 ++ u ++ t5) = true := by
  have hshape : t1 ++ ib ++ t2 ++ p ++ t3 ++ es ++ t4 ++ u ++ t5
      = (t1 ++ ib ++ t2) ++ p ++ (t3 ++ es ++ t4 ++ u ++ t5) := by
    simp [List.append_assoc]
  rw [hshape]
  exact containsSub_of_decomp _ _ _

theorem cardOf_contains_title {localFmt : PyDatetime → Str} {g : Item} {c : Str}
    (h : cardOf localFmt g = .ok c) :
    containsSub (htmlEscape g.title) c = true := by
  unfold cardOf at h
  split at h
  · exact Except.noConfusion h
  · split at h
    · exact Except.noConfusion h
    · injection h with h2
      subst h2
      exact containsSub_card_shape _ _ _ _ _ _ _ _ _

theorem containsSub_assembleBody (dyn pre ch : Str) :
    containsSub ch (assembleBody dyn pre ch) = true := by
  unfold assembleBody
  have hshape : bodyTpl1 ++ htmlEscape dyn ++ bodyTpl2 ++ htmlEscape pre ++ bodyTpl3 ++
      htmlEscape dyn ++ bodyTpl4 ++ ch ++ bodyTpl5
      = (bodyTpl1 ++ htmlEscape dyn ++ bodyTpl2 ++ htmlEscape pre ++ bodyTpl3 ++
        htmlEscape dyn ++ bodyTpl4) ++ ch ++ bodyTpl5 := by
    simp [List.append_assoc]
  rw [hshape]
  exact containsSub_of_decomp _ _ _

theorem scClean_assembleBody {dyn pre ch : Str} (hch : scClean ch) :
    scClean (assembleBody dyn pre ch) := by
  unfold assembleBody
  exact scClean_append (scClean_append (scClean_append (scClean_append
    (scClean_append (scClean_append (scClean_append (scClean_append
      scClean_bodyTpl1 (scClean_htmlEscape _)) scClean_bodyTpl2) (scClean_htmlEscape _))
      scClean_bodyTpl3) (scClean_htmlEscape _)) scClean_bodyTpl4) hch) scClean_bodyTpl5

/-- Claim C8: the Renderer HTML-escapes every upstream-supplied title and
URL before embedding: whatever the items, the rendered document never
contains the raw markup `<script>`, and if some item's title contains
`<script>` the document contains its escaped form `&lt;script&gt;`. -/
theorem epic_c8_escapes_upstream_text
    (items : List Item) (localFmt : PyDatetime → Str) (header_title : Option Str) (out : Str)
    (hrender : render_email_html items localFmt header_title = .ok out) :
    containsSub "<script>".data out = false ∧
    (∀ it ∈ items, containsSub "<script>".data it.title = true →
      containsSub "&lt;script&gt;".data out = true) := by
  simp only [render_email_html] at hrender
  split at hrender
  · exact Except.noConfusion hrender
  · rename_i cards hcards
    injection hrender with h2
    subst h2
    constructor
    · apply not_contains_script_of_scClean
      apply scClean_assembleBody
      split
      · exact scClean_emptyCards
      · exact scClean_joinWith (by rfl) (fun c hc =>
          (buildCards_ok hcards).1 c hc |>.elim (fun g hg => scClean_cardOf hg.2))
    · intro it hit htitle
      obtain ⟨c, hcmem, hcard⟩ := (buildCards_ok hcards).2 it hit
      have h1 : containsSub "&lt;script&gt;".data (htmlEscape it.title) = true := by
        have hesc := containsSub_htmlEscape htitle
        rwa [show htmlEscape "<script>".data = "&lt;script&gt;".data from rfl] at hesc
      have h2 : containsSub (htmlEscape it.title) c = true := cardOf_contains_title hcard
      have h3 : containsSub c (joinWith "\n".data cards) = true :=
        containsSub_joinWith_of_mem _ hcmem
      have hne : cards.isEmpty = false := by
        cases cards with
        | nil => exact absurd hcmem (List.not_mem_nil c)
        | cons _ _ => rfl
      rw [show (if cards.isEmpty then emptyCardsHtml else joinWith "\n".data cards)
          = joinWith "\n".data cards by rw [hne]; rfl]
      exact containsSub_trans (containsSub_trans (containsSub_trans h1 h2) h3)
        (containsSub_assembleBody _ _ _)

/-- Witness for C8: the concrete rendered document for a `<script>` title
contains only the escaped form. -/
theorem epic_c8_witness :
    render_email_html exItemsC8 exLocalFmt none = .ok exOutC8 ∧
    containsSub "<script>".data exItemC8.title = true ∧
    containsSub "<script>".data exOutC8 = false ∧
    containsSub "&lt;script&gt;".data exOutC8 = true :=
  ⟨by rfl, by rfl,
    (epic_c8_escapes_upstream_text exItemsC8 exLocalFmt none exOutC8 (by rfl)).1,
    (epic_c8_escapes_upstream_text exItemsC8 exLocalFmt none exOutC8 (by rfl)).2
      exItemC8 (List.mem_singleton.mpr rfl) (by rfl)⟩
